import Mathlib

/-!
# Collision geometry and tick loop of the maneuvering drone

Shallow embedding of `collision.h`, `collision.cpp` and the per-tick part of
`drone_comm_protocol.cpp`.

Numbers: the source functions are embedded twice.  First with exact arithmetic:
the C++ `float`/`double` values are elements of an ordered field.  The geometry
kernel (orientation, bounding-box tests, segment intersection) only uses field
operations and comparisons, so it is written over an arbitrary linear ordered
field `K`; at `K = ℚ` it is executable.  The motion code calls `sqrt`, `atan2`,
`cos` and `sin`, and is embedded over `ℝ` with the Mathlib functions.  Second with
machine arithmetic (names ending in `Fl`): every operation is followed by the
rounding of the format in which the source performs it, and the C library
functions are parameters.  Statements on numeric results are made on the second
embedding.  Infinities and signed zeros are not modelled; overflow is excluded by
explicit range conditions.  Not-a-number is modelled where the source tests for
it or produces it on purpose: the position fields of a received ghost record, and
the "no point" result of `getIntersectionPoint`.
-/

namespace Drone

section Kernel

variable {K : Type} [LinearOrderedField K]

/-- Collision tolerance, `#define EPSILON 1e-6` (collision.cpp:8, drone_comm_protocol.cpp:24). -/
def EPSILON : K := 1 / 1000000

/-- Distance per tick used by the path projection, `#define SPEED 1.5` (collision.cpp:7). -/
def SPEED : K := 3 / 2

/-- Point or vector, `struct Vec2` (collision.h:17). -/
structure Vec2 (K : Type) where
  x : K
  y : K
deriving DecidableEq

/-- Segment from `(x1, y1)` to `(x2, y2)`, `struct LineSegment` (collision.h:22). -/
structure LineSegment (K : Type) where
  x1 : K
  y1 : K
  x2 : K
  y2 : K
deriving DecidableEq

/-- Orientation of three points (collision.cpp:16-18). -/
def orientation (p1x p1y p2x p2y p3x p3y : K) : K :=
  (p3x - p1x) * (p2y - p1y) - (p2x - p1x) * (p3y - p1y)

/-- Bounding-box containment of a point in a segment (collision.cpp:21-24). -/
def pointOnSegment (px py : K) (seg : LineSegment K) : Bool :=
  decide (px ≥ min seg.x1 seg.x2) && decide (px ≤ max seg.x1 seg.x2) &&
    (decide (py ≥ min seg.y1 seg.y2) && decide (py ≤ max seg.y1 seg.y2))

/-- Overlap of two closed intervals given by unordered end points (collision.cpp:27-29). -/
def intervalsOverlap (a1 a2 b1 b2 : K) : Bool :=
  decide (max a1 a2 ≥ min b1 b2) && decide (min a1 a2 ≤ max b1 b2)

/-- Segment intersection test (collision.cpp:64-89).  Each `if (...) return true;`
of the source is one disjunct, in source order. -/
def checkLineSegmentCollision (seg1 seg2 : LineSegment K) : Bool :=
  let o1 := orientation seg1.x1 seg1.y1 seg1.x2 seg1.y2 seg2.x1 seg2.y1
  let o2 := orientation seg1.x1 seg1.y1 seg1.x2 seg1.y2 seg2.x2 seg2.y2
  let o3 := orientation seg2.x1 seg2.y1 seg2.x2 seg2.y2 seg1.x1 seg1.y1
  let o4 := orientation seg2.x1 seg2.y1 seg2.x2 seg2.y2 seg1.x2 seg1.y2
  if decide (o1 * o2 < 0) && decide (o3 * o4 < 0) then true
  else if decide (|o1| < EPSILON) && pointOnSegment seg2.x1 seg2.y1 seg1 then true
  else if decide (|o2| < EPSILON) && pointOnSegment seg2.x2 seg2.y2 seg1 then true
  else if decide (|o3| < EPSILON) && pointOnSegment seg1.x1 seg1.y1 seg2 then true
  else if decide (|o4| < EPSILON) && pointOnSegment seg1.x2 seg1.y2 seg2 then true
  else if decide (|o1| < EPSILON) && decide (|o2| < EPSILON) &&
      decide (|o3| < EPSILON) && decide (|o4| < EPSILON) then
    let xOverlap := intervalsOverlap seg1.x1 seg1.x2 seg2.x1 seg2.x2
    let yOverlap := intervalsOverlap seg1.y1 seg1.y2 seg2.y1 seg2.y2
    if xOverlap && yOverlap then true else false
  else false

/-- Intersection point of two segments (collision.cpp:92-119).  The source returns
`Vec2{NAN, NAN}` for "no intersection"; that value is `none` here. -/
def getIntersectionPoint (seg1 seg2 : LineSegment K) : Option (Vec2 K) :=
  let a1 := seg1.y2 - seg1.y1
  let b1 := seg1.x1 - seg1.x2
  let c1 := a1 * seg1.x1 + b1 * seg1.y1
  let a2 := seg2.y2 - seg2.y1
  let b2 := seg2.x1 - seg2.x2
  let c2 := a2 * seg2.x1 + b2 * seg2.y1
  let determinant := a1 * b2 - a2 * b1
  if |determinant| < EPSILON then none
  else
    let ix := (b2 * c1 - b1 * c2) / determinant
    let iy := (a1 * c2 - a2 * c1) / determinant
    if pointOnSegment ix iy seg1 && pointOnSegment ix iy seg2 then some ⟨ix, iy⟩
    else none

/-- The point `(px, py)` lies on the closed segment `seg`: it is
`start + t * (end - start)` for some `t` in `[0, 1]`.  This is the geometric
notion the specification speaks about, not a function of the source. -/
def OnSegment (px py : K) (seg : LineSegment K) : Prop :=
  ∃ t : K, 0 ≤ t ∧ t ≤ 1 ∧ px = seg.x1 + t * (seg.x2 - seg.x1) ∧
    py = seg.y1 + t * (seg.y2 - seg.y1)

/-- The two closed segments have at least one point in common. -/
def SegmentsMeet (seg1 seg2 : LineSegment K) : Prop :=
  ∃ px py : K, OnSegment px py seg1 ∧ OnSegment px py seg2

end Kernel

section Motion

/-- Real-drone record, `struct DroneData` (collision.h:6): current position,
direction and destination. -/
structure DroneData where
  curX : ℝ
  curY : ℝ
  dirX : ℝ
  dirY : ℝ
  destX : ℝ
  destY : ℝ

/-- Ghost-drone record, `struct GhostDroneData` (collision.h:12), with all four
fields finite: the form in which `checkCollision` computes with it. -/
structure GhostDroneData where
  currentX : ℝ
  currentY : ℝ
  currentDirectionX : ℝ
  currentDirectionY : ℝ

/-- Ghost-drone record as filled in by `recvfrom` (drone_comm_protocol.cpp:118):
a position coordinate is `none` when the received `float` is not-a-number.  The
direction fields are taken finite. -/
structure GhostRecord where
  currentX : Option ℝ
  currentY : Option ℝ
  currentDirectionX : ℝ
  currentDirectionY : ℝ

/-- C library `std::isnan` on a received coordinate. -/
def isnan : Option ℝ → Bool
  | none => true
  | some _ => false

/-- The comparison `v == 0.0` on a received coordinate; it is false on not-a-number. -/
noncomputable def eqZero : Option ℝ → Bool
  | none => false
  | some v => decide (v = 0)

/-- C library `atan2(y, x)` on finite reals: the angle in `(-π, π]` of the vector
`(x, y)`, and `0` for the zero vector. -/
noncomputable def atan2 (y x : ℝ) : ℝ := Complex.arg ⟨x, y⟩

/-- Angle of the direction from one point to another (collision.cpp:11-13). -/
noncomputable def calculateAngle (curX curY destX destY : ℝ) : ℝ :=
  atan2 (destY - curY) (destX - curX)

/-- Segment the drone is projected to fly in the next tick (collision.cpp:32-47). -/
noncomputable def getFlightPath (drone : DroneData) : LineSegment ℝ :=
  let dx := drone.destX - drone.curX
  let dy := drone.destY - drone.curY
  let distance := Real.sqrt (dx * dx + dy * dy)
  if distance < SPEED then
    ⟨drone.curX, drone.curY, drone.destX, drone.destY⟩
  else
    let nextX := drone.curX + (dx / distance) * SPEED
    let nextY := drone.curY + (dy / distance) * SPEED
    ⟨drone.curX, drone.curY, nextX, nextY⟩

/-- Division that reports a zero divisor instead of producing a value. -/
noncomputable def checkedDiv (a b : ℝ) : Option ℝ :=
  if b = 0 then none else some (a / b)

/-- The same code as `getFlightPath` (collision.cpp:32-47) with each `/` replaced
by `checkedDiv`: the result is `none` exactly when a division by zero is executed. -/
noncomputable def getFlightPathChecked (drone : DroneData) : Option (LineSegment ℝ) :=
  let dx := drone.destX - drone.curX
  let dy := drone.destY - drone.curY
  let distance := Real.sqrt (dx * dx + dy * dy)
  if distance < SPEED then
    some ⟨drone.curX, drone.curY, drone.destX, drone.destY⟩
  else
    (checkedDiv dx distance).bind fun qx =>
    (checkedDiv dy distance).bind fun qy =>
      let nextX := drone.curX + qx * SPEED
      let nextY := drone.curY + qy * SPEED
      some ⟨drone.curX, drone.curY, nextX, nextY⟩

/-- Predicted collision of the real drone with the ghost drone (collision.cpp:50-61). -/
noncomputable def checkCollision (realDrone : DroneData) (ghostDrone : GhostDroneData) : Bool :=
  let realPath := getFlightPath realDrone
  let ghostNextX := ghostDrone.currentX + ghostDrone.currentDirectionX * SPEED
  let ghostNextY := ghostDrone.currentY + ghostDrone.currentDirectionY * SPEED
  let ghostPath : LineSegment ℝ :=
    ⟨ghostDrone.currentX, ghostDrone.currentY, ghostNextX, ghostNextY⟩
  checkLineSegmentCollision realPath ghostPath

/-- Avoidance position (collision.cpp:121-139). -/
noncomputable def avoidCollision (cur dir : Vec2 ℝ) : Vec2 ℝ :=
  let dx := dir.x - cur.x
  let dy := dir.y - cur.y
  let angle := calculateAngle cur.x cur.y dir.x dir.y + Real.pi / 16
  let distance := Real.sqrt (dx * dx + dy * dy)
  ⟨cur.x + distance * Real.cos angle, cur.y + distance * Real.sin angle⟩

/-- One step of the drone toward its destination (drone_comm_protocol.cpp:35-64);
`speed` is the local `float speed = 1.1f`. -/
noncomputable def updatePosition (data : DroneData) : DroneData :=
  let dirToDestX := data.destX - data.curX
  let dirToDestY := data.destY - data.curY
  let length := Real.sqrt (dirToDestX * dirToDestX + dirToDestY * dirToDestY)
  let unitX := if length > 0 then dirToDestX / length else dirToDestX
  let unitY := if length > 0 then dirToDestY / length else dirToDestY
  if length < EPSILON then data
  else
    let speed : ℝ := 11 / 10
    let moved : DroneData :=
      { data with curX := data.curX + unitX * speed, curY := data.curY + unitY * speed }
    if length < speed then { moved with curX := data.destX, curY := data.destY }
    else moved

/-- The four ways the body of the receive loop (drone_comm_protocol.cpp:120-158)
can end for a record of the right size: the validity `continue`, the goal
`continue`, the collision branch, the `updatePosition` branch. -/
inductive TickBranch where
  | discarded
  | goalReached
  | avoided
  | advanced
deriving DecidableEq

/-- Validity test of the receive loop (drone_comm_protocol.cpp:124-125): true when
the record is thrown away. -/
noncomputable def isInvalid (ghost : GhostRecord) : Bool :=
  isnan ghost.currentX || isnan ghost.currentY ||
    eqZero ghost.currentX || eqZero ghost.currentY

/-- Body of the receive loop under the lock (drone_comm_protocol.cpp:120-158) for
one record of the right size: the branch taken and the value of `currDroneData`
afterwards. -/
noncomputable def tickStep (cur : DroneData) (ghost : GhostRecord) : TickBranch × DroneData :=
  if isInvalid ghost then (TickBranch.discarded, cur)
  else
    match ghost.currentX, ghost.currentY with
    | some gx, some gy =>
      let distance := Real.sqrt ((cur.destX - cur.curX) * (cur.destX - cur.curX) +
        (cur.destY - cur.curY) * (cur.destY - cur.curY))
      if distance < EPSILON then (TickBranch.goalReached, cur)
      else if checkCollision cur ⟨gx, gy, ghost.currentDirectionX, ghost.currentDirectionY⟩ then
        let newPosition := avoidCollision ⟨cur.curX, cur.curY⟩ ⟨cur.dirX, cur.dirY⟩
        (TickBranch.avoided, { cur with curX := newPosition.x, curY := newPosition.y })
      else (TickBranch.advanced, updatePosition cur)
    -- not reached: `isInvalid` is true when a coordinate is not-a-number
    | _, _ => (TickBranch.discarded, cur)

/-- Branch of the loop body taken for a record. -/
noncomputable def tickBranch (cur : DroneData) (ghost : GhostRecord) : TickBranch :=
  (tickStep cur ghost).1

/-- Value of `currDroneData` after the loop body has run for a record. -/
noncomputable def tick (cur : DroneData) (ghost : GhostRecord) : DroneData :=
  (tickStep cur ghost).2

/-- Euclidean distance between two points, as the source computes it
(`sqrt(dx * dx + dy * dy)`). -/
noncomputable def dist2 (ax ay bx by_ : ℝ) : ℝ :=
  Real.sqrt ((bx - ax) * (bx - ax) + (by_ - ay) * (by_ - ay))

/-- Invalid observation in the words of the specification, section 4.5 step 2:
"either coordinate is not-a-number or both are exactly zero".  Used only to
compare the specification with `isInvalid`. -/
def specInvalid (ghost : GhostRecord) : Prop :=
  ghost.currentX = none ∨ ghost.currentY = none ∨
    (ghost.currentX = some 0 ∧ ghost.currentY = some 0)

/-- The direction vectors of the two segments are linearly dependent: the lines
are parallel or collinear (a zero-length segment counts as parallel to
everything).  A geometric notion of the specification, not a function of the
source. -/
def Parallel {K : Type} [LinearOrderedField K] (seg1 seg2 : LineSegment K) : Prop :=
  (seg1.x2 - seg1.x1) * (seg2.y2 - seg2.y1) = (seg1.y2 - seg1.y1) * (seg2.x2 - seg2.x1)

/-- Division that reports a zero divisor instead of producing a value, over any
field. -/
def divChecked {K : Type} [LinearOrderedField K] (a b : K) : Option K :=
  if b = 0 then none else some (a / b)

/-- The same code as `getIntersectionPoint` (collision.cpp:92-119) with each `/`
replaced by `divChecked`: the outer result is `none` exactly when a division by
zero is executed, and otherwise holds the value the function returns. -/
def getIntersectionPointChecked {K : Type} [LinearOrderedField K]
    (seg1 seg2 : LineSegment K) : Option (Option (Vec2 K)) :=
  let a1 := seg1.y2 - seg1.y1
  let b1 := seg1.x1 - seg1.x2
  let c1 := a1 * seg1.x1 + b1 * seg1.y1
  let a2 := seg2.y2 - seg2.y1
  let b2 := seg2.x1 - seg2.x2
  let c2 := a2 * seg2.x1 + b2 * seg2.y1
  let determinant := a1 * b2 - a2 * b1
  if |determinant| < EPSILON then some none
  else
    (divChecked (b2 * c1 - b1 * c2) determinant).bind fun ix =>
    (divChecked (a1 * c2 - a2 * c1) determinant).bind fun iy =>
      if pointOnSegment ix iy seg1 && pointOnSegment ix iy seg2 then some (some ⟨ix, iy⟩)
      else some none

/-! ### Arithmetic with rounding

The definitions above compute with exact numbers.  The definitions below repeat
the same source functions with every arithmetic operation followed by the rounding
of the machine format in which the source performs it (`double` is binary64,
`float` is binary32; an operation on two `float` operands is performed in `float`).
Comparisons, `min`, `max` and `abs` are exact on machine numbers and are not
rounded.  The rounding functions are parameters, so that statements proved for
every `Arith` hold for the machine arithmetic; `ieee` below is the concrete
round-to-nearest-even arithmetic on rationals, used to evaluate the code on
concrete inputs.  Infinities and not-a-number results of arithmetic are not
modelled: `ieee` is meant for values within the finite range of the formats. -/

/-- The arithmetic the source runs on: rounding of the result of a `float` and of a
`double` operation, and the computed square roots.  A result of exactly zero is
not changed by rounding, the computed square root of zero is zero, and the
`double` value of the literal `1e-6` and the `float` value of the literal `1.1f`
are positive.  The rounding functions round as
if the exponent range had no upper end; `max32` and `max64` are the largest finite
numbers of the two formats, and an operation whose rounded result exceeds them in
magnitude overflows on the machine (see `Fin32`, `Fin64`). -/
structure Arith (K : Type) [LinearOrderedField K] where
  rnd32 : K → K
  rnd64 : K → K
  sqrt32 : K → K
  sqrt64 : K → K
  max32 : K
  max64 : K
  rnd32_zero : rnd32 0 = 0
  rnd64_zero : rnd64 0 = 0
  sqrt32_zero : sqrt32 0 = 0
  sqrt64_zero : sqrt64 0 = 0
  epsilon_pos : 0 < rnd64 (1 / 1000000)
  speed_pos : 0 < rnd32 (11 / 10)

/-- Number of halvings that bring `n` below 2, with `fuel` steps at most. -/
def log2Fuel : Nat → Nat → Nat
  | 0, _ => 0
  | fuel + 1, n => if n < 2 then 0 else log2Fuel fuel (n / 2) + 1

/-- Integer part of the binary logarithm of `n` (0 for `n = 0`). -/
def natLog2 (n : Nat) : Nat := log2Fuel n n

/-- The power `2 ^ k` for an integer exponent. -/
def pow2 (k : ℤ) : ℚ :=
  if 0 ≤ k then ((2 ^ k.toNat : ℕ) : ℚ) else 1 / ((2 ^ (-k).toNat : ℕ) : ℚ)

/-- Binary exponent of a rational `x ≠ 0`: the `e` with `2 ^ e ≤ |x| < 2 ^ (e + 1)`. -/
def binExponent (x : ℚ) : ℤ :=
  let e0 : ℤ := (natLog2 x.num.natAbs : ℤ) - (natLog2 x.den : ℤ)
  if pow2 e0 ≤ |x| then e0 else e0 - 1

/-- Nearest integer, ties to the even one. -/
def roundHalfEven (x : ℚ) : ℤ :=
  let f := ⌊x⌋
  let r := x - f
  if r < 1 / 2 then f else if 1 / 2 < r then f + 1 else if f % 2 = 0 then f else f + 1

/-- Round to nearest, ties to even, in a binary format with `p` significant bits
whose smallest positive number is `2 ^ emin`. -/
def roundBin (p : ℕ) (emin : ℤ) (x : ℚ) : ℚ :=
  if x = 0 then 0
  else
    let k := max (binExponent x - ((p : ℤ) - 1)) emin
    (roundHalfEven (x / pow2 k) : ℚ) * pow2 k

/-- Rounding to binary32 (`float`). -/
def round32 (x : ℚ) : ℚ := roundBin 24 (-149) x

/-- Rounding to binary64 (`double`). -/
def round64 (x : ℚ) : ℚ := roundBin 53 (-1074) x

/-- Integer square root by bits: the largest `acc + c` with square at most `n`,
trying the bits below `b` from the top. -/
def isqrtBits (n : Nat) : Nat → Nat → Nat
  | 0, acc => acc
  | b + 1, acc =>
    if (acc + 2 ^ b) * (acc + 2 ^ b) ≤ n then isqrtBits n b (acc + 2 ^ b)
    else isqrtBits n b acc

/-- Integer part of the square root of `n`. -/
def isqrt (n : Nat) : Nat := isqrtBits n (natLog2 n / 2 + 1) 0

/-- Correctly rounded square root in a binary format with `p` significant bits:
the number of the format nearest to the exact root (ties to even), and `0` for
arguments that are not positive. -/
def sqrtBin (p : ℕ) (x : ℚ) : ℚ :=
  if x ≤ 0 then 0
  else
    -- scale by a power of 4 so that the integer part has more than `2 * p + 2` bits
    let j : ℤ := (2 * (p : ℤ) + 4 - binExponent x) / 2 + 1
    let y : ℚ := x * pow2 (2 * j)
    let m : Nat := isqrt ⌊y⌋.toNat
    let u : Nat := 2 ^ (natLog2 m + 1 - p)
    let lo : Nat := m / u * u
    let mid : ℚ := (lo : ℚ) + (u : ℚ) / 2
    let q : Nat :=
      if y < mid * mid then lo
      else if mid * mid < y then lo + u
      else if (m / u) % 2 = 0 then lo else lo + u
    (q : ℚ) / pow2 j

/-- Round-to-nearest-even binary32 and binary64 arithmetic on rationals. -/
def ieee : Arith ℚ where
  rnd32 := round32
  rnd64 := round64
  sqrt32 := sqrtBin 24
  sqrt64 := sqrtBin 53
  max32 := (2 ^ 24 - 1) * 2 ^ 104
  max64 := (2 ^ 53 - 1) * 2 ^ 971
  rnd32_zero := rfl
  rnd64_zero := rfl
  sqrt32_zero := rfl
  sqrt64_zero := rfl
  epsilon_pos := by decide!
  speed_pos := by decide!

section RoundedKernel

variable {K : Type} [LinearOrderedField K]

/-- The `float` operation whose exact result is `v` does not overflow. -/
def Fin32 (A : Arith K) (v : K) : Prop := |A.rnd32 v| ≤ A.max32

/-- The `double` operation whose exact result is `v` does not overflow. -/
def Fin64 (A : Arith K) (v : K) : Prop := |A.rnd64 v| ≤ A.max64

instance instDecidableFin32 (A : Arith K) (v : K) : Decidable (Fin32 A v) := by
  unfold Fin32; infer_instance

instance instDecidableFin64 (A : Arith K) (v : K) : Decidable (Fin64 A v) := by
  unfold Fin64; infer_instance

/-- The `double` value of the literal `1e-6` of `#define EPSILON 1e-6`. -/
def epsFl (A : Arith K) : K := A.rnd64 EPSILON

/-- `orientation` (collision.cpp:16-18) in `double` arithmetic: two differences,
a product, two differences, a product and the final difference, each rounded. -/
def orientationFl (A : Arith K) (p1x p1y p2x p2y p3x p3y : K) : K :=
  A.rnd64 (A.rnd64 (A.rnd64 (p3x - p1x) * A.rnd64 (p2y - p1y)) -
    A.rnd64 (A.rnd64 (p2x - p1x) * A.rnd64 (p3y - p1y)))

/-- `checkLineSegmentCollision` (collision.cpp:64-89) in `double` arithmetic.  The
products `o1 * o2` and `o3 * o4` are rounded; `pointOnSegment` and
`intervalsOverlap` only compare. -/
def checkLineSegmentCollisionFl (A : Arith K) (seg1 seg2 : LineSegment K) : Bool :=
  let o1 := orientationFl A seg1.x1 seg1.y1 seg1.x2 seg1.y2 seg2.x1 seg2.y1
  let o2 := orientationFl A seg1.x1 seg1.y1 seg1.x2 seg1.y2 seg2.x2 seg2.y2
  let o3 := orientationFl A seg2.x1 seg2.y1 seg2.x2 seg2.y2 seg1.x1 seg1.y1
  let o4 := orientationFl A seg2.x1 seg2.y1 seg2.x2 seg2.y2 seg1.x2 seg1.y2
  if decide (A.rnd64 (o1 * o2) < 0) && decide (A.rnd64 (o3 * o4) < 0) then true
  else if decide (|o1| < epsFl A) && pointOnSegment seg2.x1 seg2.y1 seg1 then true
  else if decide (|o2| < epsFl A) && pointOnSegment seg2.x2 seg2.y2 seg1 then true
  else if decide (|o3| < epsFl A) && pointOnSegment seg1.x1 seg1.y1 seg2 then true
  else if decide (|o4| < epsFl A) && pointOnSegment seg1.x2 seg1.y2 seg2 then true
  else if decide (|o1| < epsFl A) && decide (|o2| < epsFl A) &&
      decide (|o3| < epsFl A) && decide (|o4| < epsFl A) then
    let xOverlap := intervalsOverlap seg1.x1 seg1.x2 seg2.x1 seg2.x2
    let yOverlap := intervalsOverlap seg1.y1 seg1.y2 seg2.y1 seg2.y2
    if xOverlap && yOverlap then true else false
  else false

/-- The determinant computed by `getIntersectionPoint` (collision.cpp:93-101) in
`double` arithmetic. -/
def determinantFl (A : Arith K) (seg1 seg2 : LineSegment K) : K :=
  let a1 := A.rnd64 (seg1.y2 - seg1.y1)
  let b1 := A.rnd64 (seg1.x1 - seg1.x2)
  let a2 := A.rnd64 (seg2.y2 - seg2.y1)
  let b2 := A.rnd64 (seg2.x1 - seg2.x2)
  A.rnd64 (A.rnd64 (a1 * b2) - A.rnd64 (a2 * b1))

/-- The abscissa `intersection_point.x` computed by `getIntersectionPoint`
(collision.cpp:93-109) in `double` arithmetic. -/
def intersectionXFl (A : Arith K) (seg1 seg2 : LineSegment K) : K :=
  let a1 := A.rnd64 (seg1.y2 - seg1.y1)
  let b1 := A.rnd64 (seg1.x1 - seg1.x2)
  let c1 := A.rnd64 (A.rnd64 (a1 * seg1.x1) + A.rnd64 (b1 * seg1.y1))
  let a2 := A.rnd64 (seg2.y2 - seg2.y1)
  let b2 := A.rnd64 (seg2.x1 - seg2.x2)
  let c2 := A.rnd64 (A.rnd64 (a2 * seg2.x1) + A.rnd64 (b2 * seg2.y1))
  A.rnd64 (A.rnd64 (A.rnd64 (b2 * c1) - A.rnd64 (b1 * c2)) / determinantFl A seg1 seg2)

/-- The ordinate `intersection_point.y` computed by `getIntersectionPoint`
(collision.cpp:93-110) in `double` arithmetic. -/
def intersectionYFl (A : Arith K) (seg1 seg2 : LineSegment K) : K :=
  let a1 := A.rnd64 (seg1.y2 - seg1.y1)
  let b1 := A.rnd64 (seg1.x1 - seg1.x2)
  let c1 := A.rnd64 (A.rnd64 (a1 * seg1.x1) + A.rnd64 (b1 * seg1.y1))
  let a2 := A.rnd64 (seg2.y2 - seg2.y1)
  let b2 := A.rnd64 (seg2.x1 - seg2.x2)
  let c2 := A.rnd64 (A.rnd64 (a2 * seg2.x1) + A.rnd64 (b2 * seg2.y1))
  A.rnd64 (A.rnd64 (A.rnd64 (a1 * c2) - A.rnd64 (a2 * c1)) / determinantFl A seg1 seg2)

/-- The exact determinant `a1 * b2 - a2 * b1` of `getIntersectionPoint`. -/
def determinant (seg1 seg2 : LineSegment K) : K :=
  (seg1.y2 - seg1.y1) * (seg2.x1 - seg2.x2) - (seg2.y2 - seg2.y1) * (seg1.x1 - seg1.x2)

/-- The two numbers have the same sign: both negative, both zero or both positive. -/
def SameSign (a b : K) : Prop := (a < 0 ↔ b < 0) ∧ (0 < a ↔ 0 < b)

/-- None of the seven operations of `orientationFl` overflows. -/
def orientationInRange (A : Arith K) (p1x p1y p2x p2y p3x p3y : K) : Prop :=
  Fin64 A (p3x - p1x) ∧ Fin64 A (p2y - p1y) ∧
    Fin64 A (A.rnd64 (p3x - p1x) * A.rnd64 (p2y - p1y)) ∧
    Fin64 A (p2x - p1x) ∧ Fin64 A (p3y - p1y) ∧
    Fin64 A (A.rnd64 (p2x - p1x) * A.rnd64 (p3y - p1y)) ∧
    Fin64 A (A.rnd64 (A.rnd64 (p3x - p1x) * A.rnd64 (p2y - p1y)) -
      A.rnd64 (A.rnd64 (p2x - p1x) * A.rnd64 (p3y - p1y)))

/-- The orientation value is computed without overflow and with the sign of its
exact value. -/
def OrientationKept (A : Arith K) (p1x p1y p2x p2y p3x p3y : K) : Prop :=
  orientationInRange A p1x p1y p2x p2y p3x p3y ∧
    SameSign (orientationFl A p1x p1y p2x p2y p3x p3y) (orientation p1x p1y p2x p2y p3x p3y)

/-- The product of two computed values is computed without overflow and with the
sign of the exact product. -/
def ProductKept (A : Arith K) (a b : K) : Prop :=
  Fin64 A (a * b) ∧ SameSign (A.rnd64 (a * b)) (a * b)

/-- No operation of `checkLineSegmentCollision` overflows, and rounding has not
changed the sign of any of the four orientation values, nor of the two products
`o1 * o2` and `o3 * o4`. -/
def SignsKept (A : Arith K) (seg1 seg2 : LineSegment K) : Prop :=
  OrientationKept A seg1.x1 seg1.y1 seg1.x2 seg1.y2 seg2.x1 seg2.y1 ∧
    OrientationKept A seg1.x1 seg1.y1 seg1.x2 seg1.y2 seg2.x2 seg2.y2 ∧
    OrientationKept A seg2.x1 seg2.y1 seg2.x2 seg2.y2 seg1.x1 seg1.y1 ∧
    OrientationKept A seg2.x1 seg2.y1 seg2.x2 seg2.y2 seg1.x2 seg1.y2 ∧
    ProductKept A (orientationFl A seg1.x1 seg1.y1 seg1.x2 seg1.y2 seg2.x1 seg2.y1)
      (orientationFl A seg1.x1 seg1.y1 seg1.x2 seg1.y2 seg2.x2 seg2.y2) ∧
    ProductKept A (orientationFl A seg2.x1 seg2.y1 seg2.x2 seg2.y2 seg1.x1 seg1.y1)
      (orientationFl A seg2.x1 seg2.y1 seg2.x2 seg2.y2 seg1.x2 seg1.y2)

instance instDecidableSameSign (a b : K) : Decidable (SameSign a b) := by
  unfold SameSign; infer_instance

instance instDecidableOrientationKept (A : Arith K) (p1x p1y p2x p2y p3x p3y : K) :
    Decidable (OrientationKept A p1x p1y p2x p2y p3x p3y) := by
  unfold OrientationKept orientationInRange; infer_instance

instance instDecidableProductKept (A : Arith K) (a b : K) :
    Decidable (ProductKept A a b) := by
  unfold ProductKept; infer_instance

instance instDecidableSignsKept (A : Arith K) (seg1 seg2 : LineSegment K) :
    Decidable (SignsKept A seg1 seg2) := by
  unfold SignsKept; infer_instance

/-- No `EPSILON` test of `checkLineSegmentCollision` that succeeds sees a nonzero
orientation value: an end-point test that fires has its orientation value equal to
zero, and the collinear test, when it fires, has all four equal to zero. -/
def TestsExact (A : Arith K) (seg1 seg2 : LineSegment K) : Prop :=
  (|orientationFl A seg1.x1 seg1.y1 seg1.x2 seg1.y2 seg2.x1 seg2.y1| < epsFl A ∧
      pointOnSegment seg2.x1 seg2.y1 seg1 = true →
      orientationFl A seg1.x1 seg1.y1 seg1.x2 seg1.y2 seg2.x1 seg2.y1 = 0) ∧
    (|orientationFl A seg1.x1 seg1.y1 seg1.x2 seg1.y2 seg2.x2 seg2.y2| < epsFl A ∧
      pointOnSegment seg2.x2 seg2.y2 seg1 = true →
      orientationFl A seg1.x1 seg1.y1 seg1.x2 seg1.y2 seg2.x2 seg2.y2 = 0) ∧
    (|orientationFl A seg2.x1 seg2.y1 seg2.x2 seg2.y2 seg1.x1 seg1.y1| < epsFl A ∧
      pointOnSegment seg1.x1 seg1.y1 seg2 = true →
      orientationFl A seg2.x1 seg2.y1 seg2.x2 seg2.y2 seg1.x1 seg1.y1 = 0) ∧
    (|orientationFl A seg2.x1 seg2.y1 seg2.x2 seg2.y2 seg1.x2 seg1.y2| < epsFl A ∧
      pointOnSegment seg1.x2 seg1.y2 seg2 = true →
      orientationFl A seg2.x1 seg2.y1 seg2.x2 seg2.y2 seg1.x2 seg1.y2 = 0) ∧
    ((|orientationFl A seg1.x1 seg1.y1 seg1.x2 seg1.y2 seg2.x1 seg2.y1| < epsFl A ∧
        |orientationFl A seg1.x1 seg1.y1 seg1.x2 seg1.y2 seg2.x2 seg2.y2| < epsFl A ∧
        |orientationFl A seg2.x1 seg2.y1 seg2.x2 seg2.y2 seg1.x1 seg1.y1| < epsFl A ∧
        |orientationFl A seg2.x1 seg2.y1 seg2.x2 seg2.y2 seg1.x2 seg1.y2| < epsFl A) ∧
      intervalsOverlap seg1.x1 seg1.x2 seg2.x1 seg2.x2 = true ∧
      intervalsOverlap seg1.y1 seg1.y2 seg2.y1 seg2.y2 = true →
      orientationFl A seg1.x1 seg1.y1 seg1.x2 seg1.y2 seg2.x1 seg2.y1 = 0 ∧
        orientationFl A seg1.x1 seg1.y1 seg1.x2 seg1.y2 seg2.x2 seg2.y2 = 0 ∧
        orientationFl A seg2.x1 seg2.y1 seg2.x2 seg2.y2 seg1.x1 seg1.y1 = 0 ∧
        orientationFl A seg2.x1 seg2.y1 seg2.x2 seg2.y2 seg1.x2 seg1.y2 = 0)

instance instDecidableTestsExact (A : Arith K) (seg1 seg2 : LineSegment K) :
    Decidable (TestsExact A seg1 seg2) := by
  unfold TestsExact; infer_instance

/-- A short, nearly collinear segment whose coordinates are binary64 numbers
(about `(1.66e-5, 1.60e-5)-(2.04e-4, 1.96e-4)`). -/
def nearCollinearA : LineSegment ℚ :=
  ⟨1225739020097761 / 73786976294838206464,
    4711459105563679 / 295147905179352825856,
    7536782488482309 / 36893488147419103232,
    7242414963501111 / 36893488147419103232⟩

/-- A second short segment almost on the line of `nearCollinearA`, beyond its end
(about `(2.19e-4, 2.11e-4)-(5.10e-4, 4.90e-4)`); binary64 coordinates. -/
def nearCollinearB : LineSegment ℚ :=
  ⟨4048841642065791 / 18446744073709551616,
    1945352100724389 / 9223372036854775808,
    2351156766814115 / 4611686018427387904,
    2259326572782705 / 4611686018427387904⟩

/-- The exact abscissa of Cramer's rule in `getIntersectionPoint`,
`(b2 * c1 - b1 * c2) / determinant`. -/
def intersectionX (seg1 seg2 : LineSegment K) : K :=
  ((seg2.x1 - seg2.x2) * ((seg1.y2 - seg1.y1) * seg1.x1 + (seg1.x1 - seg1.x2) * seg1.y1) -
      (seg1.x1 - seg1.x2) * ((seg2.y2 - seg2.y1) * seg2.x1 + (seg2.x1 - seg2.x2) * seg2.y1)) /
    ((seg1.y2 - seg1.y1) * (seg2.x1 - seg2.x2) - (seg2.y2 - seg2.y1) * (seg1.x1 - seg1.x2))

/-- The exact ordinate of Cramer's rule in `getIntersectionPoint`,
`(a1 * c2 - a2 * c1) / determinant`. -/
def intersectionY (seg1 seg2 : LineSegment K) : K :=
  ((seg1.y2 - seg1.y1) * ((seg2.y2 - seg2.y1) * seg2.x1 + (seg2.x1 - seg2.x2) * seg2.y1) -
      (seg2.y2 - seg2.y1) * ((seg1.y2 - seg1.y1) * seg1.x1 + (seg1.x1 - seg1.x2) * seg1.y1)) /
    ((seg1.y2 - seg1.y1) * (seg2.x1 - seg2.x2) - (seg2.y2 - seg2.y1) * (seg1.x1 - seg1.x2))

/-- None of the seven operations that compute the determinant in
`getIntersectionPoint` overflows. -/
def determinantInRange (A : Arith K) (seg1 seg2 : LineSegment K) : Prop :=
  Fin64 A (seg1.y2 - seg1.y1) ∧ Fin64 A (seg1.x1 - seg1.x2) ∧
    Fin64 A (seg2.y2 - seg2.y1) ∧ Fin64 A (seg2.x1 - seg2.x2) ∧
    Fin64 A (A.rnd64 (seg1.y2 - seg1.y1) * A.rnd64 (seg2.x1 - seg2.x2)) ∧
    Fin64 A (A.rnd64 (seg2.y2 - seg2.y1) * A.rnd64 (seg1.x1 - seg1.x2)) ∧
    Fin64 A (A.rnd64 (A.rnd64 (seg1.y2 - seg1.y1) * A.rnd64 (seg2.x1 - seg2.x2)) -
      A.rnd64 (A.rnd64 (seg2.y2 - seg2.y1) * A.rnd64 (seg1.x1 - seg1.x2)))

/-- None of the three operations that compute `c = a * x + b * y` overflows. -/
def lineConstantInRange (A : Arith K) (a b x y : K) : Prop :=
  Fin64 A (a * x) ∧ Fin64 A (b * y) ∧ Fin64 A (A.rnd64 (a * x) + A.rnd64 (b * y))

/-- None of the four operations that compute a coordinate `(p * c - q * d) / det`
overflows. -/
def quotientInRange (A : Arith K) (p c q d det : K) : Prop :=
  Fin64 A (p * c) ∧ Fin64 A (q * d) ∧ Fin64 A (A.rnd64 (p * c) - A.rnd64 (q * d)) ∧
    Fin64 A (A.rnd64 (A.rnd64 (p * c) - A.rnd64 (q * d)) / det)

/-- No operation of `getIntersectionPoint` overflows. -/
def cramerInRange (A : Arith K) (seg1 seg2 : LineSegment K) : Prop :=
  let a1 := A.rnd64 (seg1.y2 - seg1.y1)
  let b1 := A.rnd64 (seg1.x1 - seg1.x2)
  let c1 := A.rnd64 (A.rnd64 (a1 * seg1.x1) + A.rnd64 (b1 * seg1.y1))
  let a2 := A.rnd64 (seg2.y2 - seg2.y1)
  let b2 := A.rnd64 (seg2.x1 - seg2.x2)
  let c2 := A.rnd64 (A.rnd64 (a2 * seg2.x1) + A.rnd64 (b2 * seg2.y1))
  determinantInRange A seg1 seg2 ∧
    lineConstantInRange A a1 b1 seg1.x1 seg1.y1 ∧
    lineConstantInRange A a2 b2 seg2.x1 seg2.y1 ∧
    quotientInRange A b2 c1 b1 c2 (determinantFl A seg1 seg2) ∧
    quotientInRange A a1 c2 a2 c1 (determinantFl A seg1 seg2)

/-- The determinant of `getIntersectionPoint` is computed without overflow and
without rounding error. -/
def DeterminantExact (A : Arith K) (seg1 seg2 : LineSegment K) : Prop :=
  determinantInRange A seg1 seg2 ∧ determinantFl A seg1 seg2 = determinant seg1 seg2

/-- The determinant and the two coordinates are computed by `getIntersectionPoint`
without overflow and without rounding error: the computed values are the exact
ones. -/
def CramerExact (A : Arith K) (seg1 seg2 : LineSegment K) : Prop :=
  cramerInRange A seg1 seg2 ∧
    determinantFl A seg1 seg2 = determinant seg1 seg2 ∧
    intersectionXFl A seg1 seg2 = intersectionX seg1 seg2 ∧
    intersectionYFl A seg1 seg2 = intersectionY seg1 seg2

instance instDecidableDeterminantExact (A : Arith K) (seg1 seg2 : LineSegment K) :
    Decidable (DeterminantExact A seg1 seg2) := by
  unfold DeterminantExact determinantInRange; infer_instance

instance instDecidableCramerExact (A : Arith K) (seg1 seg2 : LineSegment K) :
    Decidable (CramerExact A seg1 seg2) := by
  unfold CramerExact cramerInRange determinantInRange lineConstantInRange quotientInRange
  simp only []
  infer_instance

end RoundedKernel

section RoundedMotion

variable {K : Type} [LinearOrderedField K]

/-- `struct DroneData` (collision.h:6) with coordinates in `K`; the fields are
`float`. -/
structure DroneDataF (K : Type) where
  curX : K
  curY : K
  dirX : K
  dirY : K
  destX : K
  destY : K
deriving DecidableEq

/-- `struct GhostDroneData` (collision.h:12) with finite `float` fields in `K`. -/
structure GhostDroneDataF (K : Type) where
  currentX : K
  currentY : K
  currentDirectionX : K
  currentDirectionY : K
deriving DecidableEq

/-- Ghost record as filled in by `recvfrom` (drone_comm_protocol.cpp:118): a
position coordinate is `none` when the received `float` is not-a-number.  The
direction fields are taken finite. -/
structure GhostRecordF (K : Type) where
  currentX : Option K
  currentY : Option K
  currentDirectionX : K
  currentDirectionY : K
deriving DecidableEq

/-- The C library functions used by `avoidCollision`, as they return on the
machine (their results are `double` numbers), and the `double` value of the
constant `M_PI/16`.  The language does not fix how these results are rounded. -/
structure Libm (K : Type) where
  atan2 : K → K → K
  cos : K → K
  sin : K → K
  piDiv16 : K

/-- The distance computed by `getFlightPath` (collision.cpp:33-35): the differences
of the `float` fields are `float` operations, the rest is `double`. -/
def flightDistanceFl (A : Arith K) (drone : DroneDataF K) : K :=
  let dx := A.rnd32 (drone.destX - drone.curX)
  let dy := A.rnd32 (drone.destY - drone.curY)
  A.sqrt64 (A.rnd64 (A.rnd64 (dx * dx) + A.rnd64 (dy * dy)))

/-- `getFlightPath` (collision.cpp:32-47) in machine arithmetic. -/
def getFlightPathFl (A : Arith K) (drone : DroneDataF K) : LineSegment K :=
  let dx := A.rnd32 (drone.destX - drone.curX)
  let dy := A.rnd32 (drone.destY - drone.curY)
  let distance := A.sqrt64 (A.rnd64 (A.rnd64 (dx * dx) + A.rnd64 (dy * dy)))
  if distance < SPEED then
    ⟨drone.curX, drone.curY, drone.destX, drone.destY⟩
  else
    let nextX := A.rnd64 (drone.curX + A.rnd64 (A.rnd64 (dx / distance) * SPEED))
    let nextY := A.rnd64 (drone.curY + A.rnd64 (A.rnd64 (dy / distance) * SPEED))
    ⟨drone.curX, drone.curY, nextX, nextY⟩

/-- `checkCollision` (collision.cpp:50-61) in machine arithmetic. -/
def checkCollisionFl (A : Arith K) (realDrone : DroneDataF K)
    (ghostDrone : GhostDroneDataF K) : Bool :=
  let realPath := getFlightPathFl A realDrone
  let ghostNextX :=
    A.rnd64 (ghostDrone.currentX + A.rnd64 (ghostDrone.currentDirectionX * SPEED))
  let ghostNextY :=
    A.rnd64 (ghostDrone.currentY + A.rnd64 (ghostDrone.currentDirectionY * SPEED))
  let ghostPath : LineSegment K :=
    ⟨ghostDrone.currentX, ghostDrone.currentY, ghostNextX, ghostNextY⟩
  checkLineSegmentCollisionFl A realPath ghostPath

/-- `avoidCollision` (collision.cpp:121-139) in machine arithmetic: `double`
operations, the C library results of `L`, and the narrowing of the distance to
`float` (`float distance = sqrt(...)`). -/
def avoidCollisionFl (A : Arith K) (L : Libm K) (cur dir : Vec2 K) : Vec2 K :=
  let dx := A.rnd64 (dir.x - cur.x)
  let dy := A.rnd64 (dir.y - cur.y)
  let angle := A.rnd64 (L.atan2 (A.rnd64 (dir.y - cur.y)) (A.rnd64 (dir.x - cur.x)) +
    L.piDiv16)
  let distance := A.rnd32 (A.sqrt64 (A.rnd64 (A.rnd64 (dx * dx) + A.rnd64 (dy * dy))))
  ⟨A.rnd64 (cur.x + A.rnd64 (distance * L.cos angle)),
    A.rnd64 (cur.y + A.rnd64 (distance * L.sin angle))⟩

/-- The `float` value of the literal `1.1f` (`float speed = 1.1f`,
drone_comm_protocol.cpp:54). -/
def speedFl (A : Arith K) : K := A.rnd32 (11 / 10)

/-- The length computed by `updatePosition` (drone_comm_protocol.cpp:36-39) and, by
the same expression, the distance of the goal check of the receive loop
(drone_comm_protocol.cpp:131-132): all operations are `float` operations. -/
def updateLengthFl (A : Arith K) (data : DroneDataF K) : K :=
  let dirToDestX := A.rnd32 (data.destX - data.curX)
  let dirToDestY := A.rnd32 (data.destY - data.curY)
  A.sqrt32 (A.rnd32 (A.rnd32 (dirToDestX * dirToDestX) + A.rnd32 (dirToDestY * dirToDestY)))

/-- `updatePosition` (drone_comm_protocol.cpp:35-64) in `float` arithmetic. -/
def updatePositionFl (A : Arith K) (data : DroneDataF K) : DroneDataF K :=
  let dirToDestX := A.rnd32 (data.destX - data.curX)
  let dirToDestY := A.rnd32 (data.destY - data.curY)
  let length := A.sqrt32
    (A.rnd32 (A.rnd32 (dirToDestX * dirToDestX) + A.rnd32 (dirToDestY * dirToDestY)))
  let unitX := if length > 0 then A.rnd32 (dirToDestX / length) else dirToDestX
  let unitY := if length > 0 then A.rnd32 (dirToDestY / length) else dirToDestY
  if length < epsFl A then data
  else
    let speed := A.rnd32 (11 / 10)
    let moved : DroneDataF K :=
      { data with
        curX := A.rnd32 (data.curX + A.rnd32 (unitX * speed))
        curY := A.rnd32 (data.curY + A.rnd32 (unitY * speed)) }
    if length < speed then { moved with curX := data.destX, curY := data.destY }
    else moved

/-- `std::isnan` on a received coordinate. -/
def isnanF : Option K → Bool
  | none => true
  | some _ => false

/-- The comparison `v == 0.0` on a received coordinate; false on not-a-number. -/
def eqZeroF : Option K → Bool
  | none => false
  | some v => decide (v = 0)

/-- Validity test of the receive loop (drone_comm_protocol.cpp:124-125): true when
the record is thrown away. -/
def isInvalidF (ghost : GhostRecordF K) : Bool :=
  isnanF ghost.currentX || isnanF ghost.currentY ||
    eqZeroF ghost.currentX || eqZeroF ghost.currentY

/-- Body of the receive loop under the lock (drone_comm_protocol.cpp:120-158) in
machine arithmetic, for one record of the right size.  The avoidance position is
narrowed from `double` to `float` when it is stored in `currDroneData`. -/
def tickStepFl (A : Arith K) (L : Libm K) (cur : DroneDataF K) (ghost : GhostRecordF K) :
    TickBranch × DroneDataF K :=
  if isInvalidF ghost then (TickBranch.discarded, cur)
  else
    match ghost.currentX, ghost.currentY with
    | some gx, some gy =>
      let distance := updateLengthFl A cur
      if distance < epsFl A then (TickBranch.goalReached, cur)
      else if checkCollisionFl A cur
          ⟨gx, gy, ghost.currentDirectionX, ghost.currentDirectionY⟩ then
        let newPosition := avoidCollisionFl A L ⟨cur.curX, cur.curY⟩ ⟨cur.dirX, cur.dirY⟩
        (TickBranch.avoided,
          { cur with curX := A.rnd32 newPosition.x, curY := A.rnd32 newPosition.y })
      else (TickBranch.advanced, updatePositionFl A cur)
    -- not reached: `isInvalidF` is true when a coordinate is not-a-number
    | _, _ => (TickBranch.discarded, cur)

/-- Invalid observation in the words of the specification (section 4.5 step 2):
a coordinate is not-a-number, or both are exactly zero. -/
def specInvalidF (ghost : GhostRecordF K) : Prop :=
  ghost.currentX = none ∨ ghost.currentY = none ∨
    (ghost.currentX = some 0 ∧ ghost.currentY = some 0)

/-- No operation of the step branch of `getFlightPath` overflows. -/
def flightInRange (A : Arith K) (drone : DroneDataF K) : Prop :=
  let dx := A.rnd32 (drone.destX - drone.curX)
  let dy := A.rnd32 (drone.destY - drone.curY)
  let distance := flightDistanceFl A drone
  Fin32 A (drone.destX - drone.curX) ∧ Fin32 A (drone.destY - drone.curY) ∧
    Fin64 A (dx * dx) ∧ Fin64 A (dy * dy) ∧ Fin64 A (A.rnd64 (dx * dx) + A.rnd64 (dy * dy)) ∧
    Fin64 A (dx / distance) ∧ Fin64 A (A.rnd64 (dx / distance) * SPEED) ∧
    Fin64 A (drone.curX + A.rnd64 (A.rnd64 (dx / distance) * SPEED)) ∧
    Fin64 A (dy / distance) ∧ Fin64 A (A.rnd64 (dy / distance) * SPEED) ∧
    Fin64 A (drone.curY + A.rnd64 (A.rnd64 (dy / distance) * SPEED))

/-- The step of `getFlightPath` is computed without overflow and without rounding
error: the computed distance `d` is the exact distance from position to
destination, and the computed end point is exactly
`position + (destination - position) / d * SPEED`. -/
def FlightPathExact (A : Arith K) (drone : DroneDataF K) : Prop :=
  flightInRange A drone ∧
    flightDistanceFl A drone * flightDistanceFl A drone =
      (drone.destX - drone.curX) * (drone.destX - drone.curX) +
        (drone.destY - drone.curY) * (drone.destY - drone.curY) ∧
    (getFlightPathFl A drone).x2 =
      drone.curX + (drone.destX - drone.curX) / flightDistanceFl A drone * SPEED ∧
    (getFlightPathFl A drone).y2 =
      drone.curY + (drone.destY - drone.curY) / flightDistanceFl A drone * SPEED

instance instDecidableFlightPathExact (A : Arith K) (drone : DroneDataF K) :
    Decidable (FlightPathExact A drone) := by
  unfold FlightPathExact flightInRange
  simp only []
  infer_instance

/-- No operation of the step branch of `updatePosition` overflows. -/
def updateInRange (A : Arith K) (data : DroneDataF K) : Prop :=
  let dirToDestX := A.rnd32 (data.destX - data.curX)
  let dirToDestY := A.rnd32 (data.destY - data.curY)
  let length := updateLengthFl A data
  Fin32 A (data.destX - data.curX) ∧ Fin32 A (data.destY - data.curY) ∧
    Fin32 A (dirToDestX * dirToDestX) ∧ Fin32 A (dirToDestY * dirToDestY) ∧
    Fin32 A (A.rnd32 (dirToDestX * dirToDestX) + A.rnd32 (dirToDestY * dirToDestY)) ∧
    Fin32 A (dirToDestX / length) ∧ Fin32 A (A.rnd32 (dirToDestX / length) * speedFl A) ∧
    Fin32 A (data.curX + A.rnd32 (A.rnd32 (dirToDestX / length) * speedFl A)) ∧
    Fin32 A (dirToDestY / length) ∧ Fin32 A (A.rnd32 (dirToDestY / length) * speedFl A) ∧
    Fin32 A (data.curY + A.rnd32 (A.rnd32 (dirToDestY / length) * speedFl A))

/-- The step of `updatePosition` is computed without overflow and without rounding
error: the computed length `d` is the exact distance from position to destination,
and the new position is exactly `position + (destination - position) / d * speed`. -/
def UpdateExact (A : Arith K) (data : DroneDataF K) : Prop :=
  updateInRange A data ∧
    updateLengthFl A data * updateLengthFl A data =
      (data.destX - data.curX) * (data.destX - data.curX) +
        (data.destY - data.curY) * (data.destY - data.curY) ∧
    (updatePositionFl A data).curX =
      data.curX + (data.destX - data.curX) / updateLengthFl A data * speedFl A ∧
    (updatePositionFl A data).curY =
      data.curY + (data.destY - data.curY) / updateLengthFl A data * speedFl A

instance instDecidableUpdateExact (A : Arith K) (data : DroneDataF K) :
    Decidable (UpdateExact A data) := by
  unfold UpdateExact updateInRange
  simp only []
  infer_instance

instance instDecidableSpecInvalidF (ghost : GhostRecordF K) :
    Decidable (specInvalidF ghost) := by
  unfold specInvalidF; infer_instance

/-- The angle computed by `avoidCollision` (collision.cpp:127): the result of
`calculateAngle` plus `M_PI/16`. -/
def avoidAngleFl (A : Arith K) (L : Libm K) (cur dir : Vec2 K) : K :=
  A.rnd64 (L.atan2 (A.rnd64 (dir.y - cur.y)) (A.rnd64 (dir.x - cur.x)) + L.piDiv16)

/-- The distance computed by `avoidCollision` (collision.cpp:128), narrowed to
`float`. -/
def avoidDistanceFl (A : Arith K) (cur dir : Vec2 K) : K :=
  let dx := A.rnd64 (dir.x - cur.x)
  let dy := A.rnd64 (dir.y - cur.y)
  A.rnd32 (A.sqrt64 (A.rnd64 (A.rnd64 (dx * dx) + A.rnd64 (dy * dy))))

/-- No operation of `avoidCollision` overflows. -/
def avoidInRange (A : Arith K) (L : Libm K) (cur dir : Vec2 K) : Prop :=
  let dx := A.rnd64 (dir.x - cur.x)
  let dy := A.rnd64 (dir.y - cur.y)
  let angle := avoidAngleFl A L cur dir
  let distance := avoidDistanceFl A cur dir
  Fin64 A (dir.x - cur.x) ∧ Fin64 A (dir.y - cur.y) ∧
    Fin64 A (dx * dx) ∧ Fin64 A (dy * dy) ∧ Fin64 A (A.rnd64 (dx * dx) + A.rnd64 (dy * dy)) ∧
    Fin32 A (A.sqrt64 (A.rnd64 (A.rnd64 (dx * dx) + A.rnd64 (dy * dy)))) ∧
    Fin64 A (distance * L.cos angle) ∧ Fin64 A (cur.x + A.rnd64 (distance * L.cos angle)) ∧
    Fin64 A (distance * L.sin angle) ∧ Fin64 A (cur.y + A.rnd64 (distance * L.sin angle))

/-- The arithmetic of `avoidCollision` is carried out without overflow and without
rounding error: the narrowed distance `d` is the exact distance from `cur` to
`dir`, and the result is exactly `cur + d * (cos a, sin a)` for the C library
results at the computed angle `a`. -/
def AvoidExact (A : Arith K) (L : Libm K) (cur dir : Vec2 K) : Prop :=
  avoidInRange A L cur dir ∧
    avoidDistanceFl A cur dir * avoidDistanceFl A cur dir =
      (dir.x - cur.x) * (dir.x - cur.x) + (dir.y - cur.y) * (dir.y - cur.y) ∧
    (avoidCollisionFl A L cur dir).x =
      cur.x + avoidDistanceFl A cur dir * L.cos (avoidAngleFl A L cur dir) ∧
    (avoidCollisionFl A L cur dir).y =
      cur.y + avoidDistanceFl A cur dir * L.sin (avoidAngleFl A L cur dir)

instance instDecidableAvoidExact (A : Arith K) (L : Libm K) (cur dir : Vec2 K) :
    Decidable (AvoidExact A L cur dir) := by
  unfold AvoidExact avoidInRange
  simp only []
  infer_instance

end RoundedMotion

end Motion

/-! ## Geometry kernel: unfolding lemmas -/

section KernelLemmas

variable {K : Type} [LinearOrderedField K]

theorem EPSILON_pos : (0 : K) < EPSILON := by
  unfold EPSILON; positivity

theorem pointOnSegment_iff (px py : K) (seg : LineSegment K) :
    pointOnSegment px py seg = true ↔
      (min seg.x1 seg.x2 ≤ px ∧ px ≤ max seg.x1 seg.x2) ∧
        (min seg.y1 seg.y2 ≤ py ∧ py ≤ max seg.y1 seg.y2) := by
  simp [pointOnSegment]

theorem intervalsOverlap_iff (a1 a2 b1 b2 : K) :
    intervalsOverlap a1 a2 b1 b2 = true ↔
      min b1 b2 ≤ max a1 a2 ∧ min a1 a2 ≤ max b1 b2 := by
  simp [intervalsOverlap]

/-- The result of `checkLineSegmentCollision` as the disjunction of its six
`return true` conditions. -/
theorem checkLineSegmentCollision_iff (seg1 seg2 : LineSegment K) :
    checkLineSegmentCollision seg1 seg2 = true ↔
      (orientation seg1.x1 seg1.y1 seg1.x2 seg1.y2 seg2.x1 seg2.y1 *
          orientation seg1.x1 seg1.y1 seg1.x2 seg1.y2 seg2.x2 seg2.y2 < 0 ∧
        orientation seg2.x1 seg2.y1 seg2.x2 seg2.y2 seg1.x1 seg1.y1 *
          orientation seg2.x1 seg2.y1 seg2.x2 seg2.y2 seg1.x2 seg1.y2 < 0) ∨
      (|orientation seg1.x1 seg1.y1 seg1.x2 seg1.y2 seg2.x1 seg2.y1| < EPSILON ∧
        pointOnSegment seg2.x1 seg2.y1 seg1 = true) ∨
      (|orientation seg1.x1 seg1.y1 seg1.x2 seg1.y2 seg2.x2 seg2.y2| < EPSILON ∧
        pointOnSegment seg2.x2 seg2.y2 seg1 = true) ∨
      (|orientation seg2.x1 seg2.y1 seg2.x2 seg2.y2 seg1.x1 seg1.y1| < EPSILON ∧
        pointOnSegment seg1.x1 seg1.y1 seg2 = true) ∨
      (|orientation seg2.x1 seg2.y1 seg2.x2 seg2.y2 seg1.x2 seg1.y2| < EPSILON ∧
        pointOnSegment seg1.x2 seg1.y2 seg2 = true) ∨
      ((|orientation seg1.x1 seg1.y1 seg1.x2 seg1.y2 seg2.x1 seg2.y1| < EPSILON ∧
          |orientation seg1.x1 seg1.y1 seg1.x2 seg1.y2 seg2.x2 seg2.y2| < EPSILON ∧
          |orientation seg2.x1 seg2.y1 seg2.x2 seg2.y2 seg1.x1 seg1.y1| < EPSILON ∧
          |orientation seg2.x1 seg2.y1 seg2.x2 seg2.y2 seg1.x2 seg1.y2| < EPSILON) ∧
        intervalsOverlap seg1.x1 seg1.x2 seg2.x1 seg2.x2 = true ∧
        intervalsOverlap seg1.y1 seg1.y2 seg2.y1 seg2.y2 = true) := by
  unfold checkLineSegmentCollision
  simp only []
  split_ifs <;> simp_all

/-- A point of the closed segment lies in the bounding box of its end points. -/
theorem pointOnSegment_of_onSegment {px py : K} {seg : LineSegment K}
    (h : OnSegment px py seg) : pointOnSegment px py seg = true := by
  obtain ⟨t, ht0, ht1, hx, hy⟩ := h
  rw [pointOnSegment_iff]
  have h1t : 0 ≤ 1 - t := by linarith
  refine ⟨⟨?_, ?_⟩, ?_, ?_⟩
  · rcases le_total seg.x1 seg.x2 with hle | hle
    · rw [min_eq_left hle]; nlinarith [mul_nonneg ht0 (sub_nonneg.mpr hle)]
    · rw [min_eq_right hle]; nlinarith [mul_nonneg h1t (sub_nonneg.mpr hle)]
  · rcases le_total seg.x1 seg.x2 with hle | hle
    · rw [max_eq_right hle]; nlinarith [mul_nonneg h1t (sub_nonneg.mpr hle)]
    · rw [max_eq_left hle]; nlinarith [mul_nonneg ht0 (sub_nonneg.mpr hle)]
  · rcases le_total seg.y1 seg.y2 with hle | hle
    · rw [min_eq_left hle]; nlinarith [mul_nonneg ht0 (sub_nonneg.mpr hle)]
    · rw [min_eq_right hle]; nlinarith [mul_nonneg h1t (sub_nonneg.mpr hle)]
  · rcases le_total seg.y1 seg.y2 with hle | hle
    · rw [max_eq_right hle]; nlinarith [mul_nonneg h1t (sub_nonneg.mpr hle)]
    · rw [max_eq_left hle]; nlinarith [mul_nonneg ht0 (sub_nonneg.mpr hle)]

/-- One coordinate: a value between two end points is an affine combination of
them with a parameter in `[0, 1]`. -/
theorem exists_param_of_between {a b p : K} (hne : a ≠ b)
    (h1 : min a b ≤ p) (h2 : p ≤ max a b) :
    0 ≤ (p - a) / (b - a) ∧ (p - a) / (b - a) ≤ 1 ∧ p = a + (p - a) / (b - a) * (b - a) := by
  have hba : b - a ≠ 0 := sub_ne_zero.mpr (Ne.symm hne)
  refine ⟨?_, ?_, by field_simp⟩
  · rcases lt_or_gt_of_ne hne with hlt | hgt
    · rw [min_eq_left hlt.le] at h1
      exact div_nonneg (by linarith) (by linarith)
    · rw [max_eq_left hgt.le] at h2
      exact div_nonneg_of_nonpos (by linarith) (by linarith)
  · rcases lt_or_gt_of_ne hne with hlt | hgt
    · rw [max_eq_right hlt.le] at h2
      rw [div_le_one (by linarith)]; linarith
    · rw [min_eq_right hgt.le] at h1
      rw [div_le_one_of_neg (by linarith)]; linarith

/-- A point with zero orientation relative to a segment and inside its bounding
box lies on the closed segment. -/
theorem onSegment_of_collinear_of_pointOnSegment {px py : K} {seg : LineSegment K}
    (ho : orientation seg.x1 seg.y1 seg.x2 seg.y2 px py = 0)
    (hb : pointOnSegment px py seg = true) : OnSegment px py seg := by
  rw [pointOnSegment_iff] at hb
  obtain ⟨⟨hx1, hx2⟩, hy1, hy2⟩ := hb
  unfold orientation at ho
  by_cases hx : seg.x1 = seg.x2
  · by_cases hy : seg.y1 = seg.y2
    · refine ⟨0, le_refl 0, zero_le_one, ?_, ?_⟩
      · rw [← hx, min_self] at hx1; rw [← hx, max_self] at hx2
        rw [zero_mul, add_zero]; exact le_antisymm hx2 hx1
      · rw [← hy, min_self] at hy1; rw [← hy, max_self] at hy2
        rw [zero_mul, add_zero]; exact le_antisymm hy2 hy1
    · obtain ⟨h0, h1, he⟩ := exists_param_of_between hy hy1 hy2
      refine ⟨(py - seg.y1) / (seg.y2 - seg.y1), h0, h1, ?_, he⟩
      rw [← hx, min_self] at hx1; rw [← hx, max_self] at hx2
      rw [← hx, sub_self, mul_zero, add_zero]; exact le_antisymm hx2 hx1
  · obtain ⟨h0, h1, he⟩ := exists_param_of_between hx hx1 hx2
    refine ⟨(px - seg.x1) / (seg.x2 - seg.x1), h0, h1, he, ?_⟩
    have hba : seg.x2 - seg.x1 ≠ 0 := sub_ne_zero.mpr (Ne.symm hx)
    field_simp
    linear_combination -ho

/-- Orientation is affine in its third point. -/
theorem orientation_affine (ax ay bx by_ cx cy dx dy u : K) :
    orientation ax ay bx by_ (cx + u * (dx - cx)) (cy + u * (dy - cy)) =
      (1 - u) * orientation ax ay bx by_ cx cy + u * orientation ax ay bx by_ dx dy := by
  unfold orientation; ring

/-- Points of the line through the first two points have orientation zero. -/
theorem orientation_on_line (ax ay bx by_ t : K) :
    orientation ax ay bx by_ (ax + t * (bx - ax)) (ay + t * (by_ - ay)) = 0 := by
  unfold orientation; ring

/-- The four orientation values of two segments are linked: the differences
`o1 - o2` and `o4 - o3` are the same cross product of the two directions. -/
theorem orientation_diff (s1 s2 : LineSegment K) :
    orientation s1.x1 s1.y1 s1.x2 s1.y2 s2.x1 s2.y1 -
        orientation s1.x1 s1.y1 s1.x2 s1.y2 s2.x2 s2.y2 =
      orientation s2.x1 s2.y1 s2.x2 s2.y2 s1.x2 s1.y2 -
        orientation s2.x1 s2.y1 s2.x2 s2.y2 s1.x1 s1.y1 := by
  unfold orientation; ring

/-- Two values that cancel with positive weights and are not both zero have a
negative product. -/
theorem mul_neg_of_weighted_zero {a b u : K} (hu0 : 0 < u) (hu1 : u < 1)
    (h : (1 - u) * a + u * b = 0) (ha : a ≠ 0) : a * b < 0 := by
  have h1 : 0 < 1 - u := by linarith
  have ha2 : 0 < a * a := mul_self_pos.mpr ha
  have hub : u * (a * b) = -((1 - u) * (a * a)) := by linear_combination a * h
  have hneg : u * (a * b) < 0 := by rw [hub]; exact neg_neg_of_pos (mul_pos h1 ha2)
  by_contra hcon
  push_neg at hcon
  have := mul_nonneg hu0.le hcon
  linarith

/-- A point common to both segments puts their coordinate intervals in overlap. -/
theorem intervalsOverlap_of_common {a1 a2 b1 b2 p : K}
    (ha : min a1 a2 ≤ p ∧ p ≤ max a1 a2) (hb : min b1 b2 ≤ p ∧ p ≤ max b1 b2) :
    intervalsOverlap a1 a2 b1 b2 = true := by
  rw [intervalsOverlap_iff]
  exact ⟨le_trans hb.1 ha.2, le_trans ha.1 hb.2⟩

theorem onSegment_start (seg : LineSegment K) : OnSegment seg.x1 seg.y1 seg :=
  ⟨0, le_refl 0, zero_le_one, by ring, by ring⟩

theorem onSegment_end (seg : LineSegment K) : OnSegment seg.x2 seg.y2 seg :=
  ⟨1, zero_le_one, le_refl 1, by ring, by ring⟩

/-- On a segment that is not vertical, a collinear point whose abscissa is between
those of the end points lies on the closed segment. -/
theorem onSegment_of_collinear_of_x {px py : K} {seg : LineSegment K}
    (hne : seg.x1 ≠ seg.x2)
    (ho : orientation seg.x1 seg.y1 seg.x2 seg.y2 px py = 0)
    (h1 : min seg.x1 seg.x2 ≤ px) (h2 : px ≤ max seg.x1 seg.x2) : OnSegment px py seg := by
  obtain ⟨h0, h1, he⟩ := exists_param_of_between hne h1 h2
  refine ⟨(px - seg.x1) / (seg.x2 - seg.x1), h0, h1, he, ?_⟩
  have hba : seg.x2 - seg.x1 ≠ 0 := sub_ne_zero.mpr (Ne.symm hne)
  unfold orientation at ho
  field_simp
  linear_combination -ho

/-- On a segment that is not horizontal, a collinear point whose ordinate is
between those of the end points lies on the closed segment. -/
theorem onSegment_of_collinear_of_y {px py : K} {seg : LineSegment K}
    (hne : seg.y1 ≠ seg.y2)
    (ho : orientation seg.x1 seg.y1 seg.x2 seg.y2 px py = 0)
    (h1 : min seg.y1 seg.y2 ≤ py) (h2 : py ≤ max seg.y1 seg.y2) : OnSegment px py seg := by
  obtain ⟨h0, h1, he⟩ := exists_param_of_between hne h1 h2
  refine ⟨(py - seg.y1) / (seg.y2 - seg.y1), h0, h1, ?_, he⟩
  have hba : seg.y2 - seg.y1 ≠ 0 := sub_ne_zero.mpr (Ne.symm hne)
  unfold orientation at ho
  field_simp
  linear_combination ho

/-- When two intervals overlap, an end point of one of them lies in the other. -/
theorem endpoint_mem_of_intervalsOverlap {a1 a2 b1 b2 : K}
    (h : intervalsOverlap a1 a2 b1 b2 = true) :
    (min a1 a2 ≤ b1 ∧ b1 ≤ max a1 a2) ∨ (min a1 a2 ≤ b2 ∧ b2 ≤ max a1 a2) ∨
      (min b1 b2 ≤ a1 ∧ a1 ≤ max b1 b2) ∨ (min b1 b2 ≤ a2 ∧ a2 ≤ max b1 b2) := by
  rw [intervalsOverlap_iff] at h
  obtain ⟨h1, h2⟩ := h
  rcases le_total a1 a2 with ha | ha <;> rcases le_total b1 b2 with hb | hb <;>
    simp only [min_eq_left, min_eq_right, max_eq_left, max_eq_right, ha, hb] at h1 h2 ⊢
  · rcases le_total a1 b1 with hc | hc
    · exact Or.inl ⟨hc, h1⟩
    · exact Or.inr (Or.inr (Or.inl ⟨hc, h2⟩))
  · rcases le_total a1 b2 with hc | hc
    · exact Or.inr (Or.inl ⟨hc, h1⟩)
    · exact Or.inr (Or.inr (Or.inl ⟨hc, h2⟩))
  · rcases le_total a2 b1 with hc | hc
    · exact Or.inl ⟨hc, h1⟩
    · exact Or.inr (Or.inr (Or.inr ⟨hc, h2⟩))
  · rcases le_total a2 b2 with hc | hc
    · exact Or.inr (Or.inl ⟨hc, h1⟩)
    · exact Or.inr (Or.inr (Or.inr ⟨hc, h2⟩))

/-- Collinear segments whose coordinate intervals overlap on both axes have a
common point. -/
theorem segmentsMeet_of_collinear_overlap (s1 s2 : LineSegment K)
    (h1 : orientation s1.x1 s1.y1 s1.x2 s1.y2 s2.x1 s2.y1 = 0)
    (h2 : orientation s1.x1 s1.y1 s1.x2 s1.y2 s2.x2 s2.y2 = 0)
    (h3 : orientation s2.x1 s2.y1 s2.x2 s2.y2 s1.x1 s1.y1 = 0)
    (h4 : orientation s2.x1 s2.y1 s2.x2 s2.y2 s1.x2 s1.y2 = 0)
    (hx : intervalsOverlap s1.x1 s1.x2 s2.x1 s2.x2 = true)
    (hy : intervalsOverlap s1.y1 s1.y2 s2.y1 s2.y2 = true) : SegmentsMeet s1 s2 := by
  have hcross : (s1.x2 - s1.x1) * (s2.y2 - s2.y1) = (s1.y2 - s1.y1) * (s2.x2 - s2.x1) := by
    unfold orientation at h1 h2
    linear_combination h1 - h2
  by_cases hx1 : s1.x1 = s1.x2
  · by_cases hy1 : s1.y1 = s1.y2
    · -- `s1` is a single point inside the bounding box of `s2`
      refine ⟨s1.x1, s1.y1, onSegment_start s1,
        onSegment_of_collinear_of_pointOnSegment h3 ?_⟩
      rw [intervalsOverlap_iff] at hx hy
      rw [← hx1, min_self, max_self] at hx
      rw [← hy1, min_self, max_self] at hy
      rw [pointOnSegment_iff]
      exact ⟨⟨hx.1, hx.2⟩, hy.1, hy.2⟩
    · by_cases hy2 : s2.y1 = s2.y2
      · -- `s1` is vertical, so `s2` is a single point inside the bounding box of `s1`
        have hx2 : s2.x1 = s2.x2 := by
          rw [hx1, sub_self, zero_mul] at hcross
          have := (mul_eq_zero.mp hcross.symm).resolve_left (sub_ne_zero.mpr (Ne.symm hy1))
          exact (sub_eq_zero.mp this).symm
        refine ⟨s2.x1, s2.y1, onSegment_of_collinear_of_pointOnSegment h1 ?_,
          onSegment_start s2⟩
        rw [intervalsOverlap_iff] at hx hy
        rw [← hx2, min_self, max_self] at hx
        rw [← hy2, min_self, max_self] at hy
        rw [pointOnSegment_iff]
        exact ⟨⟨hx.2, hx.1⟩, hy.2, hy.1⟩
      · rcases endpoint_mem_of_intervalsOverlap hy with h | h | h | h
        · exact ⟨_, _, onSegment_of_collinear_of_y hy1 h1 h.1 h.2, onSegment_start s2⟩
        · exact ⟨_, _, onSegment_of_collinear_of_y hy1 h2 h.1 h.2, onSegment_end s2⟩
        · exact ⟨_, _, onSegment_start s1, onSegment_of_collinear_of_y hy2 h3 h.1 h.2⟩
        · exact ⟨_, _, onSegment_end s1, onSegment_of_collinear_of_y hy2 h4 h.1 h.2⟩
  · by_cases hx2 : s2.x1 = s2.x2
    · -- `s1` is not vertical, so `s2` is a single point inside the bounding box of `s1`
      have hy2 : s2.y1 = s2.y2 := by
        rw [hx2, sub_self, mul_zero] at hcross
        have := (mul_eq_zero.mp hcross).resolve_left (sub_ne_zero.mpr (Ne.symm hx1))
        exact (sub_eq_zero.mp this).symm
      refine ⟨s2.x1, s2.y1, onSegment_of_collinear_of_pointOnSegment h1 ?_,
        onSegment_start s2⟩
      rw [intervalsOverlap_iff] at hx hy
      rw [← hx2, min_self, max_self] at hx
      rw [← hy2, min_self, max_self] at hy
      rw [pointOnSegment_iff]
      exact ⟨⟨hx.2, hx.1⟩, hy.2, hy.1⟩
    · rcases endpoint_mem_of_intervalsOverlap hx with h | h | h | h
      · exact ⟨_, _, onSegment_of_collinear_of_x hx1 h1 h.1 h.2, onSegment_start s2⟩
      · exact ⟨_, _, onSegment_of_collinear_of_x hx1 h2 h.1 h.2, onSegment_end s2⟩
      · exact ⟨_, _, onSegment_start s1, onSegment_of_collinear_of_x hx2 h3 h.1 h.2⟩
      · exact ⟨_, _, onSegment_end s1, onSegment_of_collinear_of_x hx2 h4 h.1 h.2⟩

/-- A ratio `a / (a - b)` of two values of opposite strict sign is a parameter in
`[0, 1]`. -/
theorem ratio_mem_of_mul_neg {a b : K} (h : a * b < 0) :
    a - b ≠ 0 ∧ 0 ≤ a / (a - b) ∧ a / (a - b) ≤ 1 := by
  rcases mul_neg_iff.mp h with ⟨ha, hb⟩ | ⟨ha, hb⟩
  · have hd : 0 < a - b := by linarith
    exact ⟨hd.ne.symm, div_nonneg ha.le hd.le, by rw [div_le_one hd]; linarith⟩
  · have hd : a - b < 0 := by linarith
    exact ⟨hd.ne, div_nonneg_of_nonpos ha.le hd.le, by rw [div_le_one_of_neg hd]; linarith⟩

/-- An orientation value that is zero or at least `EPSILON` in magnitude, and
below `EPSILON` in magnitude, is zero. -/
theorem eq_zero_of_exact {o : K} (he : o = 0 ∨ EPSILON ≤ |o|) (hlt : |o| < EPSILON) : o = 0 := by
  rcases he with h | h
  · exact h
  · exact absurd hlt (not_lt.mpr h)

end KernelLemmas

/-! ## The receive loop -/

section TickLemmas

theorem isInvalid_iff (ghost : GhostRecord) :
    isInvalid ghost = true ↔
      ghost.currentX = none ∨ ghost.currentY = none ∨
        ghost.currentX = some 0 ∨ ghost.currentY = some 0 := by
  obtain ⟨x, y, dx, dy⟩ := ghost
  cases x <;> cases y <;> simp [isInvalid, isnan, eqZero]

theorem tickStep_of_isInvalid {cur : DroneData} {ghost : GhostRecord}
    (h : isInvalid ghost = true) : tickStep cur ghost = (TickBranch.discarded, cur) := by
  unfold tickStep
  rw [if_pos h]

/-- The loop body on a record that passes the validity test: the goal check, then
the collision decision. -/
theorem tickStep_of_valid {cur : DroneData} {ghost : GhostRecord} {gx gy : ℝ}
    (hx : ghost.currentX = some gx) (hy : ghost.currentY = some gy)
    (hx0 : gx ≠ 0) (hy0 : gy ≠ 0) :
    tickStep cur ghost =
      if dist2 cur.curX cur.curY cur.destX cur.destY < EPSILON then
        (TickBranch.goalReached, cur)
      else if checkCollision cur
          ⟨gx, gy, ghost.currentDirectionX, ghost.currentDirectionY⟩ = true then
        (TickBranch.avoided,
          { cur with
            curX := (avoidCollision ⟨cur.curX, cur.curY⟩ ⟨cur.dirX, cur.dirY⟩).x
            curY := (avoidCollision ⟨cur.curX, cur.curY⟩ ⟨cur.dirX, cur.dirY⟩).y })
      else (TickBranch.advanced, updatePosition cur) := by
  have hv : isInvalid ghost = false := by
    rw [← Bool.not_eq_true, isInvalid_iff, hx, hy]
    simp [hx0, hy0]
  unfold tickStep dist2
  rw [hv]
  simp only [Bool.false_eq_true, if_false, hx, hy]

theorem tickStep_branch_ne_discarded {cur : DroneData} {ghost : GhostRecord} {gx gy : ℝ}
    (hx : ghost.currentX = some gx) (hy : ghost.currentY = some gy)
    (hx0 : gx ≠ 0) (hy0 : gy ≠ 0) : (tickStep cur ghost).1 ≠ TickBranch.discarded := by
  rw [tickStep_of_valid hx hy hx0 hy0]
  split_ifs <;> simp

end TickLemmas

section Tick

/-- C3 as stated fails.  A record at position `(0, 5)` has no not-a-number
coordinate and is not at `(0, 0)`, so the specification does not call it invalid,
yet the loop discards it: the source tests `currentX == 0.0 || currentY == 0.0`. -/
theorem tickBranch_discards_single_zero :
    tickBranch ⟨10, 15, 0, 0, 350, 350⟩ ⟨some 0, some 5, 0, 0⟩ = TickBranch.discarded ∧
      ¬ specInvalid ⟨some 0, some 5, 0, 0⟩ := by
  constructor
  · unfold tickBranch
    rw [tickStep_of_isInvalid]
    rw [isInvalid_iff]
    simp
  · unfold specInvalid
    simp

/-- C3, amended.  A received record is discarded if and only if one of its position
coordinates is not-a-number or at least one of them is exactly zero; every other
record goes on to the goal check (no change when the distance to the destination
is below `EPSILON`) and then to the decide step (`checkCollision`, then either the
avoidance position or `updatePosition`). -/
theorem tickBranch_discarded_iff (cur : DroneData) (ghost : GhostRecord) :
    (tickBranch cur ghost = TickBranch.discarded ↔
        ghost.currentX = none ∨ ghost.currentY = none ∨
          ghost.currentX = some 0 ∨ ghost.currentY = some 0) ∧
      (tickBranch cur ghost ≠ TickBranch.discarded →
        ∃ gx gy : ℝ, ghost.currentX = some gx ∧ ghost.currentY = some gy ∧
          tickStep cur ghost =
            if dist2 cur.curX cur.curY cur.destX cur.destY < EPSILON then
              (TickBranch.goalReached, cur)
            else if checkCollision cur
                ⟨gx, gy, ghost.currentDirectionX, ghost.currentDirectionY⟩ = true then
              (TickBranch.avoided,
                { cur with
                  curX := (avoidCollision ⟨cur.curX, cur.curY⟩ ⟨cur.dirX, cur.dirY⟩).x
                  curY := (avoidCollision ⟨cur.curX, cur.curY⟩ ⟨cur.dirX, cur.dirY⟩).y })
            else (TickBranch.advanced, updatePosition cur)) := by
  by_cases hv : isInvalid ghost = true
  · have hd : tickBranch cur ghost = TickBranch.discarded := by
      unfold tickBranch; rw [tickStep_of_isInvalid hv]
    exact ⟨⟨fun _ => (isInvalid_iff ghost).mp hv, fun _ => hd⟩, fun hne => absurd hd hne⟩
  · have hv2 := hv
    rw [isInvalid_iff] at hv2
    have hv3 := hv2
    push_neg at hv3
    obtain ⟨hx, hy, hx0, hy0⟩ := hv3
    obtain ⟨gx, hgx⟩ := Option.ne_none_iff_exists'.mp hx
    obtain ⟨gy, hgy⟩ := Option.ne_none_iff_exists'.mp hy
    have hx0 : gx ≠ 0 := fun h => hx0 (by rw [hgx, h])
    have hy0 : gy ≠ 0 := fun h => hy0 (by rw [hgy, h])
    have hnd : tickBranch cur ghost ≠ TickBranch.discarded :=
      tickStep_branch_ne_discarded hgx hgy hx0 hy0
    exact ⟨⟨fun h => absurd h hnd, fun h => absurd h hv2⟩,
      fun _ => ⟨gx, gy, hgx, hgy, tickStep_of_valid hgx hgy hx0 hy0⟩⟩

/-- C5.  A tick whose observation is invalid - a position coordinate is
not-a-number, or the position is `(0, 0)` - leaves the whole real-drone state
(position, direction and destination) unchanged. -/
theorem tick_of_specInvalid (cur : DroneData) (ghost : GhostRecord)
    (h : specInvalid ghost) : tick cur ghost = cur := by
  have hv : isInvalid ghost = true := by
    rw [isInvalid_iff]
    rcases h with h | h | ⟨h, _⟩
    · exact Or.inl h
    · exact Or.inr (Or.inl h)
    · exact Or.inr (Or.inr (Or.inl h))
  unfold tick
  rw [tickStep_of_isInvalid hv]

/-- The start state of `main` and a record whose abscissa is not-a-number. -/
theorem tick_of_specInvalid_witness :
    specInvalid ⟨none, some 3, 1, 0⟩ ∧
      tick ⟨10, 15, 0, 0, 350, 350⟩ ⟨none, some 3, 1, 0⟩ = ⟨10, 15, 0, 0, 350, 350⟩ :=
  ⟨Or.inl rfl, tick_of_specInvalid _ _ (Or.inl rfl)⟩

end Tick

/-! ## Path projection, position update and avoidance -/

section MotionLemmas

theorem sqrt_sumsq_nonneg (a b : ℝ) : 0 ≤ a * a + b * b :=
  add_nonneg (mul_self_nonneg a) (mul_self_nonneg b)

theorem sqrt_ten : Real.sqrt ((10 - 0) * (10 - 0) + (0 - 0) * (0 - 0)) = 10 := by
  rw [show ((10 : ℝ) - 0) * (10 - 0) + (0 - 0) * (0 - 0) = 10 * 10 by norm_num]
  exact Real.sqrt_mul_self (by norm_num)

theorem sqrt_one_sq : Real.sqrt ((1 - 0) * (1 - 0) + (0 - 0) * (0 - 0)) = 1 := by
  rw [show ((1 : ℝ) - 0) * (1 - 0) + (0 - 0) * (0 - 0) = 1 * 1 by norm_num]
  exact Real.sqrt_mul_self (by norm_num)

/-- Snap branch of `getFlightPath`. -/
theorem getFlightPath_of_lt {drone : DroneData}
    (h : dist2 drone.curX drone.curY drone.destX drone.destY < SPEED) :
    getFlightPath drone = ⟨drone.curX, drone.curY, drone.destX, drone.destY⟩ := by
  unfold dist2 at h
  unfold getFlightPath
  simp only [h, if_true]

/-- Step branch of `getFlightPath`. -/
theorem getFlightPath_of_le {drone : DroneData}
    (h : SPEED ≤ dist2 drone.curX drone.curY drone.destX drone.destY) :
    getFlightPath drone =
      ⟨drone.curX, drone.curY,
        drone.curX + (drone.destX - drone.curX) /
          dist2 drone.curX drone.curY drone.destX drone.destY * SPEED,
        drone.curY + (drone.destY - drone.curY) /
          dist2 drone.curX drone.curY drone.destX drone.destY * SPEED⟩ := by
  unfold dist2 at h ⊢
  unfold getFlightPath
  simp only [not_lt.mpr h, if_false]

theorem SPEED_pos : (0 : ℝ) < SPEED := by
  unfold SPEED; norm_num

/-- A step of length `s` along the unit vector toward the destination ends at
distance `s`. -/
theorem dist2_step (ax ay bx by_ s : ℝ) (hs : 0 ≤ s) (hd : 0 < dist2 ax ay bx by_) :
    dist2 ax ay (ax + (bx - ax) / dist2 ax ay bx by_ * s)
      (ay + (by_ - ay) / dist2 ax ay bx by_ * s) = s := by
  have hsq : dist2 ax ay bx by_ * dist2 ax ay bx by_ =
      (bx - ax) * (bx - ax) + (by_ - ay) * (by_ - ay) :=
    Real.mul_self_sqrt (sqrt_sumsq_nonneg _ _)
  have hne : dist2 ax ay bx by_ ≠ 0 := hd.ne.symm
  generalize dist2 ax ay bx by_ = d at hsq hne
  unfold dist2
  have : (ax + (bx - ax) / d * s - ax) * (ax + (bx - ax) / d * s - ax) +
      (ay + (by_ - ay) / d * s - ay) * (ay + (by_ - ay) / d * s - ay) = s * s := by
    field_simp
    linear_combination (-(s * s)) * hsq
  rw [this]
  exact Real.sqrt_mul_self hs

theorem getFlightPathChecked_eq (drone : DroneData) :
    getFlightPathChecked drone = some (getFlightPath drone) := by
  unfold getFlightPathChecked getFlightPath
  simp only []
  split_ifs with h
  · rfl
  · have hpos : Real.sqrt ((drone.destX - drone.curX) * (drone.destX - drone.curX) +
        (drone.destY - drone.curY) * (drone.destY - drone.curY)) ≠ 0 := by
      have := lt_of_lt_of_le SPEED_pos (not_lt.mp h)
      exact this.ne.symm
    simp [checkedDiv, hpos]

/-- The distance used by `avoidCollision` times the cosine and sine of the angle
it computes give back the coordinate differences. -/
theorem sqrt_mul_cos_atan2 (dx dy : ℝ) :
    Real.sqrt (dx * dx + dy * dy) * Real.cos (atan2 dy dx) = dx ∧
      Real.sqrt (dx * dx + dy * dy) * Real.sin (atan2 dy dx) = dy := by
  have habs : Complex.abs ⟨dx, dy⟩ = Real.sqrt (dx * dx + dy * dy) := by
    rw [Complex.abs_apply, Complex.normSq_mk]
  unfold atan2
  rw [← habs]
  exact ⟨Complex.abs_mul_cos_arg ⟨dx, dy⟩, Complex.abs_mul_sin_arg ⟨dx, dy⟩⟩

/-- Coordinates of the avoidance position: the reference point rotated about the
current point by `π / 16`. -/
theorem avoidCollision_coords (cur ref : Vec2 ℝ) :
    (avoidCollision cur ref).x = cur.x +
        (Real.cos (Real.pi / 16) * (ref.x - cur.x) - Real.sin (Real.pi / 16) * (ref.y - cur.y)) ∧
      (avoidCollision cur ref).y = cur.y +
        (Real.sin (Real.pi / 16) * (ref.x - cur.x) + Real.cos (Real.pi / 16) * (ref.y - cur.y)) := by
  obtain ⟨hc, hs⟩ := sqrt_mul_cos_atan2 (ref.x - cur.x) (ref.y - cur.y)
  unfold avoidCollision calculateAngle
  simp only [Real.cos_add, Real.sin_add]
  constructor
  · linear_combination Real.cos (Real.pi / 16) * hc - Real.sin (Real.pi / 16) * hs
  · linear_combination Real.sin (Real.pi / 16) * hc + Real.cos (Real.pi / 16) * hs

/-- A rotation keeps the distance from its centre. -/
theorem dist2_rotate (cx cy dx dy c s : ℝ) (h : c * c + s * s = 1) :
    dist2 cx cy (cx + (c * dx - s * dy)) (cy + (s * dx + c * dy)) =
      dist2 cx cy (cx + dx) (cy + dy) := by
  unfold dist2
  congr 1
  linear_combination (dx * dx + dy * dy) * h

theorem updatePosition_example :
    updatePosition ⟨0, 0, 0, 0, 10, 0⟩ = ⟨11 / 10, 0, 0, 0, 10, 0⟩ := by
  unfold updatePosition
  simp only [sqrt_ten]
  norm_num [EPSILON]

theorem getFlightPath_example :
    getFlightPath ⟨0, 0, 0, 0, 10, 0⟩ = ⟨0, 0, 3 / 2, 0⟩ := by
  unfold getFlightPath
  simp only [sqrt_ten]
  norm_num [SPEED]

/-- The avoidance position is as far from the current point as the reference
point is. -/
theorem avoidCollision_dist2 (cur ref : Vec2 ℝ) :
    dist2 cur.x cur.y (avoidCollision cur ref).x (avoidCollision cur ref).y =
      dist2 cur.x cur.y ref.x ref.y := by
  have hco := avoidCollision_coords cur ref
  have hcs : Real.cos (Real.pi / 16) * Real.cos (Real.pi / 16) +
      Real.sin (Real.pi / 16) * Real.sin (Real.pi / 16) = 1 := by
    rw [← sq, ← sq]; exact Real.cos_sq_add_sin_sq _
  rw [hco.1, hco.2, dist2_rotate _ _ _ _ _ _ hcs]
  congr 1 <;> ring

theorem sqrt_two_bounds : (14142 : ℝ) / 10000 < Real.sqrt 2 ∧ Real.sqrt 2 < 14143 / 10000 := by
  constructor
  · rw [Real.lt_sqrt (by norm_num)]; norm_num
  · rw [Real.sqrt_lt' (by norm_num)]; norm_num

theorem sqrt_two_add_sqrt_two_bounds :
    (18477 : ℝ) / 10000 < Real.sqrt (2 + Real.sqrt 2) ∧
      Real.sqrt (2 + Real.sqrt 2) < 18478 / 10000 := by
  obtain ⟨h1, h2⟩ := sqrt_two_bounds
  constructor
  · rw [Real.lt_sqrt (by norm_num)]; norm_num; linarith
  · rw [Real.sqrt_lt' (by norm_num)]; norm_num; linarith

/-- Numeric enclosure of `cos (π / 16) = 0.98078...`. -/
theorem cos_pi_div_sixteen_bounds :
    (98075 : ℝ) / 100000 < Real.cos (Real.pi / 16) ∧
      Real.cos (Real.pi / 16) < 98085 / 100000 := by
  obtain ⟨h1, h2⟩ := sqrt_two_add_sqrt_two_bounds
  rw [Real.cos_pi_div_sixteen]
  have hlo : (19615 : ℝ) / 10000 < Real.sqrt (2 + Real.sqrt (2 + Real.sqrt 2)) := by
    rw [Real.lt_sqrt (by norm_num)]; norm_num; linarith
  have hhi : Real.sqrt (2 + Real.sqrt (2 + Real.sqrt 2)) < 19617 / 10000 := by
    rw [Real.sqrt_lt' (by norm_num)]; norm_num; linarith
  constructor <;> linarith

/-- Numeric enclosure of `sin (π / 16) = 0.19509...`. -/
theorem sin_pi_div_sixteen_bounds :
    (19505 : ℝ) / 100000 < Real.sin (Real.pi / 16) ∧
      Real.sin (Real.pi / 16) < 19515 / 100000 := by
  obtain ⟨h1, h2⟩ := sqrt_two_add_sqrt_two_bounds
  rw [Real.sin_pi_div_sixteen]
  have hlo : (3901 : ℝ) / 10000 < Real.sqrt (2 - Real.sqrt (2 + Real.sqrt 2)) := by
    rw [Real.lt_sqrt (by norm_num)]; norm_num; linarith
  have hhi : Real.sqrt (2 - Real.sqrt (2 + Real.sqrt 2)) < 3903 / 10000 := by
    rw [Real.sqrt_lt' (by norm_num)]; norm_num; linarith
  constructor <;> linarith

/-- Coordinates of the avoidance position for `cur = (0,0)`, `ref = (10,0)`. -/
theorem avoidCollision_example :
    (avoidCollision ⟨0, 0⟩ ⟨10, 0⟩).x = 10 * Real.cos (Real.pi / 16) ∧
      (avoidCollision ⟨0, 0⟩ ⟨10, 0⟩).y = 10 * Real.sin (Real.pi / 16) := by
  obtain ⟨hx, hy⟩ := avoidCollision_coords ⟨0, 0⟩ ⟨10, 0⟩
  constructor
  · rw [hx]; ring
  · rw [hy]; ring

end MotionLemmas

section MotionClaims

/-- C4 fails on the code.  Real drone at `(0,0)` heading to `(10,0)`, ghost at
`(100,100)` standing still: no collision is predicted and the tick takes the
`updatePosition` branch, which moves the drone by its own `speed = 1.1` to
`(1.1, 0)`, while `getFlightPath` projects the same state to `(1.5, 0)` with
`SPEED = 1.5`. -/
theorem tick_position_ne_flightPath_end :
    checkCollision ⟨0, 0, 0, 0, 10, 0⟩ ⟨100, 100, 0, 0⟩ = false ∧
      tickStep ⟨0, 0, 0, 0, 10, 0⟩ ⟨some 100, some 100, 0, 0⟩ =
        (TickBranch.advanced, ⟨11 / 10, 0, 0, 0, 10, 0⟩) ∧
      getFlightPath ⟨0, 0, 0, 0, 10, 0⟩ = ⟨0, 0, 3 / 2, 0⟩ ∧
      (tick ⟨0, 0, 0, 0, 10, 0⟩ ⟨some 100, some 100, 0, 0⟩).curX ≠
        (getFlightPath ⟨0, 0, 0, 0, 10, 0⟩).x2 := by
  have hc : checkCollision ⟨0, 0, 0, 0, 10, 0⟩ ⟨100, 100, 0, 0⟩ = false := by
    unfold checkCollision
    rw [getFlightPath_example, ← Bool.not_eq_true, checkLineSegmentCollision_iff]
    simp only [pointOnSegment_iff, intervalsOverlap_iff]
    norm_num [orientation, EPSILON, SPEED, abs_lt]
  have hg : ¬ dist2 0 0 10 0 < (EPSILON : ℝ) := by
    simp only [dist2, sqrt_ten]
    norm_num [EPSILON]
  have ht : tickStep ⟨0, 0, 0, 0, 10, 0⟩ ⟨some 100, some 100, 0, 0⟩ =
      (TickBranch.advanced, ⟨11 / 10, 0, 0, 0, 10, 0⟩) := by
    rw [@tickStep_of_valid ⟨0, 0, 0, 0, 10, 0⟩ ⟨some 100, some 100, 0, 0⟩ 100 100 rfl rfl
      (by norm_num) (by norm_num)]
    rw [if_neg hg, hc, updatePosition_example]
    simp
  refine ⟨hc, ht, getFlightPath_example, ?_⟩
  unfold tick
  rw [ht, getFlightPath_example]
  norm_num

/-- C9 as stated fails: the abscissa of `avoidCollision (0,0) (10,0)` is
`10 * cos (π / 16) = 9.8078...`, which is not `9.952` to three decimal places. -/
theorem avoidCollision_example_not_9952 :
    ¬ (dist2 0 0 (avoidCollision ⟨0, 0⟩ ⟨10, 0⟩).x (avoidCollision ⟨0, 0⟩ ⟨10, 0⟩).y = 10 ∧
      |(avoidCollision ⟨0, 0⟩ ⟨10, 0⟩).x - 9952 / 1000| ≤ 1 / 2000 ∧
      |(avoidCollision ⟨0, 0⟩ ⟨10, 0⟩).y - 1951 / 1000| ≤ 1 / 2000) := by
  rintro ⟨_, hx, _⟩
  rw [avoidCollision_example.1, abs_le] at hx
  have := cos_pi_div_sixteen_bounds.2
  linarith [hx.1]

/-- C9, amended.  `avoidCollision (0,0) (10,0)` is a point at distance 10 from the
origin whose coordinates are `(9.808, 1.951)` to three decimal places. -/
theorem avoidCollision_example_value :
    dist2 0 0 (avoidCollision ⟨0, 0⟩ ⟨10, 0⟩).x (avoidCollision ⟨0, 0⟩ ⟨10, 0⟩).y = 10 ∧
      |(avoidCollision ⟨0, 0⟩ ⟨10, 0⟩).x - 9808 / 1000| ≤ 1 / 2000 ∧
      |(avoidCollision ⟨0, 0⟩ ⟨10, 0⟩).y - 1951 / 1000| ≤ 1 / 2000 := by
  obtain ⟨c1, c2⟩ := cos_pi_div_sixteen_bounds
  obtain ⟨s1, s2⟩ := sin_pi_div_sixteen_bounds
  refine ⟨?_, ?_, ?_⟩
  · have h := avoidCollision_dist2 ⟨0, 0⟩ ⟨10, 0⟩
    simp only [] at h
    rw [h]
    simp only [dist2, sqrt_ten]
  · rw [avoidCollision_example.1, abs_le]
    constructor <;> linarith
  · rw [avoidCollision_example.2, abs_le]
    constructor <;> linarith

end MotionClaims

/-! ## `getIntersectionPoint`: unfolding lemmas -/

section IntersectionPointLemmas

variable {K : Type} [LinearOrderedField K]

end IntersectionPointLemmas

/-! ## Symmetry, zero-length segments and the collinear case -/

section KernelLemmas2

variable {K : Type} [LinearOrderedField K]

/-- Two values that cancel with weights `1 - u` and `u`, `0 ≤ u ≤ 1`: the weight
singles out one of them, or both vanish, or they have opposite strict signs. -/
theorem weighted_zero_cases {a b u : K} (hu0 : 0 ≤ u) (hu1 : u ≤ 1)
    (h : (1 - u) * a + u * b = 0) :
    (u = 0 ∧ a = 0) ∨ (u = 1 ∧ b = 0) ∨ (a = 0 ∧ b = 0) ∨ a * b < 0 := by
  rcases eq_or_lt_of_le hu0 with h0 | h0
  · left
    refine ⟨h0.symm, ?_⟩
    rw [← h0] at h
    linear_combination h
  rcases eq_or_lt_of_le hu1 with h1 | h1
  · right; left
    refine ⟨h1, ?_⟩
    rw [h1] at h
    linear_combination h
  by_cases ha : a = 0
  · right; right; left
    refine ⟨ha, ?_⟩
    rw [ha, mul_zero, zero_add] at h
    exact (mul_eq_zero.mp h).resolve_left h0.ne.symm
  · right; right; right
    exact mul_neg_of_weighted_zero h0 h1 h ha

/-- Two strict sign changes give a common point of the two segments. -/
theorem segmentsMeet_of_sign_changes (seg1 seg2 : LineSegment K)
    (h12 : orientation seg1.x1 seg1.y1 seg1.x2 seg1.y2 seg2.x1 seg2.y1 *
      orientation seg1.x1 seg1.y1 seg1.x2 seg1.y2 seg2.x2 seg2.y2 < 0)
    (h34 : orientation seg2.x1 seg2.y1 seg2.x2 seg2.y2 seg1.x1 seg1.y1 *
      orientation seg2.x1 seg2.y1 seg2.x2 seg2.y2 seg1.x2 seg1.y2 < 0) :
    SegmentsMeet seg1 seg2 := by
  obtain ⟨hd1, hu0, hu1⟩ := ratio_mem_of_mul_neg h12
  obtain ⟨hd3, ht0, ht1⟩ := ratio_mem_of_mul_neg h34
  refine ⟨_, _, ⟨_, ht0, ht1, rfl, rfl⟩, ⟨_, hu0, hu1, ?_, ?_⟩⟩
  · field_simp
    unfold orientation
    ring
  · field_simp
    unfold orientation
    ring

/-- Segments with a common point have overlapping coordinate intervals on both
axes. -/
theorem intervalsOverlap_of_segmentsMeet {seg1 seg2 : LineSegment K}
    (h : SegmentsMeet seg1 seg2) :
    intervalsOverlap seg1.x1 seg1.x2 seg2.x1 seg2.x2 = true ∧
      intervalsOverlap seg1.y1 seg1.y2 seg2.y1 seg2.y2 = true := by
  obtain ⟨px, py, h1, h2⟩ := h
  have hb1 := (pointOnSegment_iff _ _ _).mp (pointOnSegment_of_onSegment h1)
  have hb2 := (pointOnSegment_iff _ _ _).mp (pointOnSegment_of_onSegment h2)
  exact ⟨intervalsOverlap_of_common hb1.1 hb2.1, intervalsOverlap_of_common hb1.2 hb2.2⟩

/-- A point of both closed segments makes `checkLineSegmentCollision` answer true. -/
theorem checkLineSegmentCollision_of_onSegment {seg1 seg2 : LineSegment K} {px py : K}
    (hp1 : OnSegment px py seg1) (hp2 : OnSegment px py seg2) :
    checkLineSegmentCollision seg1 seg2 = true := by
  have hov := intervalsOverlap_of_segmentsMeet ⟨px, py, hp1, hp2⟩
  have hb1 := pointOnSegment_of_onSegment hp1
  have hb2 := pointOnSegment_of_onSegment hp2
  obtain ⟨t, ht0, ht1, hx1, hy1⟩ := hp1
  obtain ⟨u, hu0, hu1, hx2, hy2⟩ := hp2
  have I1 : (1 - u) * orientation seg1.x1 seg1.y1 seg1.x2 seg1.y2 seg2.x1 seg2.y1 +
      u * orientation seg1.x1 seg1.y1 seg1.x2 seg1.y2 seg2.x2 seg2.y2 = 0 := by
    rw [← orientation_affine, ← hx2, ← hy2, hx1, hy1]
    exact orientation_on_line _ _ _ _ _
  have I2 : (1 - t) * orientation seg2.x1 seg2.y1 seg2.x2 seg2.y2 seg1.x1 seg1.y1 +
      t * orientation seg2.x1 seg2.y1 seg2.x2 seg2.y2 seg1.x2 seg1.y2 = 0 := by
    rw [← orientation_affine, ← hx1, ← hy1, hx2, hy2]
    exact orientation_on_line _ _ _ _ _
  have I3 := orientation_diff seg1 seg2
  have hE : (0 : K) < EPSILON := EPSILON_pos
  rw [checkLineSegmentCollision_iff]
  rcases weighted_zero_cases hu0 hu1 I1 with ⟨hu, h1⟩ | ⟨hu, h2⟩ | ⟨h1, h2⟩ | h12
  · subst hu
    simp only [zero_mul, add_zero] at hx2 hy2
    subst hx2 hy2
    exact Or.inr (Or.inl ⟨by rw [h1, abs_zero]; exact hE, hb1⟩)
  · subst hu
    simp only [one_mul, add_sub_cancel] at hx2 hy2
    subst hx2 hy2
    exact Or.inr (Or.inr (Or.inl ⟨by rw [h2, abs_zero]; exact hE, hb1⟩))
  · rcases weighted_zero_cases ht0 ht1 I2 with ⟨ht, h3⟩ | ⟨ht, h4⟩ | ⟨h3, h4⟩ | h34
    · subst ht
      simp only [zero_mul, add_zero] at hx1 hy1
      subst hx1 hy1
      exact Or.inr (Or.inr (Or.inr (Or.inl ⟨by rw [h3, abs_zero]; exact hE, hb2⟩)))
    · subst ht
      simp only [one_mul, add_sub_cancel] at hx1 hy1
      subst hx1 hy1
      exact Or.inr (Or.inr (Or.inr (Or.inr (Or.inl ⟨by rw [h4, abs_zero]; exact hE, hb2⟩))))
    · refine Or.inr (Or.inr (Or.inr (Or.inr (Or.inr ⟨⟨?_, ?_, ?_, ?_⟩, hov⟩))))
      · rw [h1, abs_zero]; exact hE
      · rw [h2, abs_zero]; exact hE
      · rw [h3, abs_zero]; exact hE
      · rw [h4, abs_zero]; exact hE
    · exfalso
      rw [h1, h2, sub_self] at I3
      have h43 : orientation seg2.x1 seg2.y1 seg2.x2 seg2.y2 seg1.x2 seg1.y2 =
          orientation seg2.x1 seg2.y1 seg2.x2 seg2.y2 seg1.x1 seg1.y1 := by
        linear_combination -I3
      rw [h43] at h34
      exact absurd h34 (not_lt.mpr (mul_self_nonneg _))
  · rcases weighted_zero_cases ht0 ht1 I2 with ⟨ht, h3⟩ | ⟨ht, h4⟩ | ⟨h3, h4⟩ | h34
    · subst ht
      simp only [zero_mul, add_zero] at hx1 hy1
      subst hx1 hy1
      exact Or.inr (Or.inr (Or.inr (Or.inl ⟨by rw [h3, abs_zero]; exact hE, hb2⟩)))
    · subst ht
      simp only [one_mul, add_sub_cancel] at hx1 hy1
      subst hx1 hy1
      exact Or.inr (Or.inr (Or.inr (Or.inr (Or.inl ⟨by rw [h4, abs_zero]; exact hE, hb2⟩))))
    · exfalso
      rw [h3, h4, sub_self] at I3
      have h21 : orientation seg1.x1 seg1.y1 seg1.x2 seg1.y2 seg2.x1 seg2.y1 =
          orientation seg1.x1 seg1.y1 seg1.x2 seg1.y2 seg2.x2 seg2.y2 := by
        linear_combination I3
      rw [h21] at h12
      exact absurd h12 (not_lt.mpr (mul_self_nonneg _))
    · exact Or.inl ⟨h12, h34⟩

/-- Orientation relative to a zero-length segment is zero. -/
theorem orientation_degenerate (ax ay px py : K) : orientation ax ay ax ay px py = 0 := by
  unfold orientation; ring

/-- One direction of the symmetry of `checkLineSegmentCollision`. -/
theorem checkLineSegmentCollision_swap {segA segB : LineSegment K}
    (h : checkLineSegmentCollision segA segB = true) :
    checkLineSegmentCollision segB segA = true := by
  rw [checkLineSegmentCollision_iff] at h ⊢
  simp only [intervalsOverlap_iff] at h ⊢
  rcases h with ⟨h12, h34⟩ | h | h | h | h | ⟨⟨a1, a2, a3, a4⟩, ⟨x1, x2⟩, y1, y2⟩
  · exact Or.inl ⟨h34, h12⟩
  · exact Or.inr (Or.inr (Or.inr (Or.inl h)))
  · exact Or.inr (Or.inr (Or.inr (Or.inr (Or.inl h))))
  · exact Or.inr (Or.inl h)
  · exact Or.inr (Or.inr (Or.inl h))
  · exact Or.inr (Or.inr (Or.inr (Or.inr (Or.inr
      ⟨⟨a3, a4, a1, a2⟩, ⟨x2, x1⟩, y2, y1⟩))))

/-- A point in the bounding boxes of both segments puts their coordinate intervals
in overlap on both axes. -/
theorem intervalsOverlap_of_pointOnSegment {seg1 seg2 : LineSegment K} {px py : K}
    (h1 : pointOnSegment px py seg1 = true) (h2 : pointOnSegment px py seg2 = true) :
    intervalsOverlap seg1.x1 seg1.x2 seg2.x1 seg2.x2 = true ∧
      intervalsOverlap seg1.y1 seg1.y2 seg2.y1 seg2.y2 = true := by
  rw [pointOnSegment_iff] at h1 h2
  exact ⟨intervalsOverlap_of_common h1.1 h2.1, intervalsOverlap_of_common h1.2 h2.2⟩

end KernelLemmas2

section KernelClaims

variable {K : Type} [LinearOrderedField K]

/-- C12 (symmetry).  For every pair of segments `A`, `B`, crossing or not,
degenerate or not, `checkLineSegmentCollision A B = checkLineSegmentCollision B A`. -/
theorem checkLineSegmentCollision_comm (segA segB : LineSegment K) :
    checkLineSegmentCollision segA segB = checkLineSegmentCollision segB segA :=
  Bool.eq_iff_iff.2 ⟨checkLineSegmentCollision_swap, checkLineSegmentCollision_swap⟩

/-- C19.  For a point exactly collinear with the end points of a segment
(orientation zero), and for any point when the segment has zero length,
`pointOnSegment` is true if and only if the point lies on the closed segment. -/
theorem pointOnSegment_iff_onSegment (px py : K) (seg : LineSegment K)
    (h : orientation seg.x1 seg.y1 seg.x2 seg.y2 px py = 0 ∨
      (seg.x1 = seg.x2 ∧ seg.y1 = seg.y2)) :
    pointOnSegment px py seg = true ↔ OnSegment px py seg := by
  have ho : orientation seg.x1 seg.y1 seg.x2 seg.y2 px py = 0 := by
    rcases h with h | ⟨hx, hy⟩
    · exact h
    · rw [← hx, ← hy]; exact orientation_degenerate _ _ _ _
  exact ⟨onSegment_of_collinear_of_pointOnSegment ho, pointOnSegment_of_onSegment⟩

/-- The point `(3, 3)` is collinear with the segment `(0,0)-(2,2)` but beyond its
end: `pointOnSegment` is false and the point is not on the closed segment. -/
theorem pointOnSegment_iff_onSegment_witness :
    orientation (0 : ℚ) 0 2 2 3 3 = 0 ∧
      (pointOnSegment 3 3 (⟨0, 0, 2, 2⟩ : LineSegment ℚ) = true ↔
        OnSegment 3 3 (⟨0, 0, 2, 2⟩ : LineSegment ℚ)) ∧
      pointOnSegment 3 3 (⟨0, 0, 2, 2⟩ : LineSegment ℚ) = false :=
  have ho : orientation (0 : ℚ) 0 2 2 3 3 = 0 := by norm_num [orientation]
  ⟨ho, pointOnSegment_iff_onSegment 3 3 ⟨0, 0, 2, 2⟩ (Or.inl ho),
    by rw [← Bool.not_eq_true, pointOnSegment_iff]; norm_num⟩

end KernelClaims

/-! ## `getIntersectionPoint`: Cramer quotients of a common point -/

section IntersectionPointLemmas2

variable {K : Type} [LinearOrderedField K]

/-- What a returned point of `getIntersectionPoint` tells: the determinant passed
the `EPSILON` guard, the point is the Cramer quotient, and it is in both bounding
boxes. -/
theorem getIntersectionPoint_eq_some {seg1 seg2 : LineSegment K} {p : Vec2 K}
    (h : getIntersectionPoint seg1 seg2 = some p) :
    EPSILON ≤ |(seg1.y2 - seg1.y1) * (seg2.x1 - seg2.x2) -
        (seg2.y2 - seg2.y1) * (seg1.x1 - seg1.x2)| ∧
      p.x = ((seg2.x1 - seg2.x2) * ((seg1.y2 - seg1.y1) * seg1.x1 +
          (seg1.x1 - seg1.x2) * seg1.y1) -
        (seg1.x1 - seg1.x2) * ((seg2.y2 - seg2.y1) * seg2.x1 +
          (seg2.x1 - seg2.x2) * seg2.y1)) /
        ((seg1.y2 - seg1.y1) * (seg2.x1 - seg2.x2) -
          (seg2.y2 - seg2.y1) * (seg1.x1 - seg1.x2)) ∧
      p.y = ((seg1.y2 - seg1.y1) * ((seg2.y2 - seg2.y1) * seg2.x1 +
          (seg2.x1 - seg2.x2) * seg2.y1) -
        (seg2.y2 - seg2.y1) * ((seg1.y2 - seg1.y1) * seg1.x1 +
          (seg1.x1 - seg1.x2) * seg1.y1)) /
        ((seg1.y2 - seg1.y1) * (seg2.x1 - seg2.x2) -
          (seg2.y2 - seg2.y1) * (seg1.x1 - seg1.x2)) ∧
      pointOnSegment p.x p.y seg1 = true ∧ pointOnSegment p.x p.y seg2 = true := by
  unfold getIntersectionPoint at h
  simp only [] at h
  split_ifs at h with hdet hbox
  rw [Bool.and_eq_true] at hbox
  have hp := Option.some.inj h
  subst hp
  exact ⟨not_lt.mp hdet, rfl, rfl, hbox.1, hbox.2⟩

/-- A returned point of `getIntersectionPoint` lies on both closed segments. -/
theorem onSegment_of_getIntersectionPoint {seg1 seg2 : LineSegment K} {p : Vec2 K}
    (h : getIntersectionPoint seg1 seg2 = some p) :
    OnSegment p.x p.y seg1 ∧ OnSegment p.x p.y seg2 := by
  obtain ⟨hdet, hx, hy, hb1, hb2⟩ := getIntersectionPoint_eq_some h
  have hE : (0 : K) < EPSILON := EPSILON_pos
  have hne : (seg1.y2 - seg1.y1) * (seg2.x1 - seg2.x2) -
      (seg2.y2 - seg2.y1) * (seg1.x1 - seg1.x2) ≠ 0 := by
    intro h0
    rw [h0, abs_zero] at hdet
    exact absurd hE (not_lt.mpr hdet)
  have ho1 : orientation seg1.x1 seg1.y1 seg1.x2 seg1.y2 p.x p.y = 0 := by
    unfold orientation
    rw [hx, hy]
    field_simp
    ring
  have ho2 : orientation seg2.x1 seg2.y1 seg2.x2 seg2.y2 p.x p.y = 0 := by
    unfold orientation
    rw [hx, hy]
    field_simp
    ring
  exact ⟨onSegment_of_collinear_of_pointOnSegment ho1 hb1,
    onSegment_of_collinear_of_pointOnSegment ho2 hb2⟩

/-- Parallel or collinear segments have determinant zero and get the "none" value. -/
theorem getIntersectionPoint_of_parallel {seg1 seg2 : LineSegment K}
    (h : Parallel seg1 seg2) : getIntersectionPoint seg1 seg2 = none := by
  have hdet : (seg1.y2 - seg1.y1) * (seg2.x1 - seg2.x2) -
      (seg2.y2 - seg2.y1) * (seg1.x1 - seg1.x2) = 0 := by
    unfold Parallel at h
    linear_combination h
  unfold getIntersectionPoint
  simp only []
  rw [hdet, abs_zero, if_pos EPSILON_pos]

/-- Every division of `getIntersectionPoint` has a divisor different from zero:
the checked version never fails and computes the same result. -/
theorem getIntersectionPointChecked_eq (seg1 seg2 : LineSegment K) :
    getIntersectionPointChecked seg1 seg2 = some (getIntersectionPoint seg1 seg2) := by
  unfold getIntersectionPointChecked getIntersectionPoint divChecked
  simp only []
  by_cases hdet : |(seg1.y2 - seg1.y1) * (seg2.x1 - seg2.x2) -
      (seg2.y2 - seg2.y1) * (seg1.x1 - seg1.x2)| < EPSILON
  · rw [if_pos hdet, if_pos hdet]
  · have hne : (seg1.y2 - seg1.y1) * (seg2.x1 - seg2.x2) -
        (seg2.y2 - seg2.y1) * (seg1.x1 - seg1.x2) ≠ 0 := by
      intro h0
      rw [h0, abs_zero] at hdet
      exact hdet EPSILON_pos
    simp only [if_neg hdet, if_neg hne, Option.some_bind]
    split_ifs <;> rfl

end IntersectionPointLemmas2

/-! ## Collision predicate, position update and the frame of a tick -/

section MotionLemmas2

/-- `updatePosition` writes only the current position. -/
theorem updatePosition_frame (data : DroneData) :
    (updatePosition data).dirX = data.dirX ∧ (updatePosition data).dirY = data.dirY ∧
      (updatePosition data).destX = data.destX ∧ (updatePosition data).destY = data.destY := by
  unfold updatePosition
  simp only []
  split_ifs <;> exact ⟨rfl, rfl, rfl, rfl⟩

/-- `updatePosition` at the goal: the early `return`. -/
theorem updatePosition_of_lt_epsilon {data : DroneData}
    (h : dist2 data.curX data.curY data.destX data.destY < EPSILON) :
    updatePosition data = data := by
  unfold dist2 at h
  unfold updatePosition
  simp only [h, if_true]

/-- `updatePosition` within one step of the destination: the snap. -/
theorem updatePosition_of_lt_speed {data : DroneData}
    (h1 : EPSILON ≤ dist2 data.curX data.curY data.destX data.destY)
    (h2 : dist2 data.curX data.curY data.destX data.destY < 11 / 10) :
    updatePosition data =
      ⟨data.destX, data.destY, data.dirX, data.dirY, data.destX, data.destY⟩ := by
  unfold dist2 at h1 h2
  unfold updatePosition
  simp only [not_lt.mpr h1, h2, if_true, if_false]

/-- `updatePosition` farther than one step from the destination: a step of length
`1.1` along the unit vector. -/
theorem updatePosition_of_le {data : DroneData}
    (h : 11 / 10 ≤ dist2 data.curX data.curY data.destX data.destY) :
    updatePosition data =
      ⟨data.curX + (data.destX - data.curX) /
          dist2 data.curX data.curY data.destX data.destY * (11 / 10),
        data.curY + (data.destY - data.curY) /
          dist2 data.curX data.curY data.destX data.destY * (11 / 10),
        data.dirX, data.dirY, data.destX, data.destY⟩ := by
  have hpos : 0 < dist2 data.curX data.curY data.destX data.destY :=
    lt_of_lt_of_le (by norm_num) h
  have hE : ¬ dist2 data.curX data.curY data.destX data.destY < EPSILON := by
    unfold EPSILON
    intro hlt
    linarith
  unfold dist2 at h hpos hE ⊢
  unfold updatePosition
  simp only [hE, not_lt.mpr h, hpos, gt_iff_lt, if_true, if_false]

/-- After a step of length `s ≤ d` toward a point at distance `d`, the remaining
distance is `d - s`. -/
theorem dist2_remaining (ax ay bx by_ s : ℝ) (hd : 0 < dist2 ax ay bx by_)
    (hs : s ≤ dist2 ax ay bx by_) :
    dist2 (ax + (bx - ax) / dist2 ax ay bx by_ * s)
        (ay + (by_ - ay) / dist2 ax ay bx by_ * s) bx by_ =
      dist2 ax ay bx by_ - s := by
  have hsq : dist2 ax ay bx by_ * dist2 ax ay bx by_ =
      (bx - ax) * (bx - ax) + (by_ - ay) * (by_ - ay) :=
    Real.mul_self_sqrt (sqrt_sumsq_nonneg _ _)
  have hne : dist2 ax ay bx by_ ≠ 0 := hd.ne.symm
  generalize dist2 ax ay bx by_ = d at hsq hne hs
  unfold dist2
  have : (bx - (ax + (bx - ax) / d * s)) * (bx - (ax + (bx - ax) / d * s)) +
      (by_ - (ay + (by_ - ay) / d * s)) * (by_ - (ay + (by_ - ay) / d * s)) =
      (d - s) * (d - s) := by
    field_simp
    linear_combination (-((d - s) * (d - s))) * hsq
  rw [this]
  exact Real.sqrt_mul_self (sub_nonneg.mpr hs)

/-- The projected path of a drone at `(0,0)` heading to `(10,0)`, whatever its
direction field. -/
theorem getFlightPath_example_dir (dx dy : ℝ) :
    getFlightPath ⟨0, 0, dx, dy, 10, 0⟩ = ⟨0, 0, 3 / 2, 0⟩ := by
  unfold getFlightPath
  simp only [sqrt_ten]
  norm_num [SPEED]

/-- A tick writes only the current position. -/
theorem tick_frame_fields (cur : DroneData) (ghost : GhostRecord) :
    (tick cur ghost).dirX = cur.dirX ∧ (tick cur ghost).dirY = cur.dirY ∧
      (tick cur ghost).destX = cur.destX ∧ (tick cur ghost).destY = cur.destY := by
  unfold tick
  by_cases hv : isInvalid ghost = true
  · rw [tickStep_of_isInvalid hv]
    exact ⟨rfl, rfl, rfl, rfl⟩
  · rw [isInvalid_iff] at hv
    push_neg at hv
    obtain ⟨hx, hy, hx0, hy0⟩ := hv
    obtain ⟨gx, hgx⟩ := Option.ne_none_iff_exists'.mp hx
    obtain ⟨gy, hgy⟩ := Option.ne_none_iff_exists'.mp hy
    have hx0 : gx ≠ 0 := fun h => hx0 (by rw [hgx, h])
    have hy0 : gy ≠ 0 := fun h => hy0 (by rw [hgy, h])
    rw [tickStep_of_valid hgx hgy hx0 hy0]
    split_ifs
    · exact ⟨rfl, rfl, rfl, rfl⟩
    · exact ⟨rfl, rfl, rfl, rfl⟩
    · exact updatePosition_frame cur

end MotionLemmas2

section MotionClaims2

/-- C14.  `checkCollision` returns `checkLineSegmentCollision` applied to
`getFlightPath` of the real drone and the segment from the ghost position to the
ghost position plus `SPEED` times the ghost direction.  The direction field of the
real drone plays no part; the ghost record has no destination field.  Example:
real drone at `(0,0)` heading to `(10,0)`, ghost at `(1,0)` with direction `(-1,0)`
gives true. -/
theorem checkCollision_spec (realDrone : DroneData) (ghostDrone : GhostDroneData) :
    checkCollision realDrone ghostDrone =
        checkLineSegmentCollision (getFlightPath realDrone)
          ⟨ghostDrone.currentX, ghostDrone.currentY,
            ghostDrone.currentX + SPEED * ghostDrone.currentDirectionX,
            ghostDrone.currentY + SPEED * ghostDrone.currentDirectionY⟩ ∧
      (∀ dx dy : ℝ,
        checkCollision { realDrone with dirX := dx, dirY := dy } ghostDrone =
          checkCollision realDrone ghostDrone) ∧
      checkCollision ⟨0, 0, realDrone.dirX, realDrone.dirY, 10, 0⟩ ⟨1, 0, -1, 0⟩ = true := by
  refine ⟨?_, fun dx dy => rfl, ?_⟩
  · unfold checkCollision
    simp only [mul_comm]
  · unfold checkCollision
    rw [getFlightPath_example_dir, checkLineSegmentCollision_iff]
    right; left
    rw [pointOnSegment_iff]
    norm_num [orientation, EPSILON]

end MotionClaims2

/-! ## The geometry kernel in rounded arithmetic -/

section RoundedKernelLemmas

variable {K : Type} [LinearOrderedField K]

theorem sameSign_eq_zero_iff {a b : K} (h : SameSign a b) : a = 0 ↔ b = 0 := by
  obtain ⟨hn, hp⟩ := h
  constructor
  · intro ha
    rcases lt_trichotomy b 0 with hb | hb | hb
    · exact absurd (hn.mpr hb) (by rw [ha]; exact lt_irrefl 0)
    · exact hb
    · exact absurd (hp.mpr hb) (by rw [ha]; exact lt_irrefl 0)
  · intro hb
    rcases lt_trichotomy a 0 with ha | ha | ha
    · exact absurd (hn.mp ha) (by rw [hb]; exact lt_irrefl 0)
    · exact ha
    · exact absurd (hp.mp ha) (by rw [hb]; exact lt_irrefl 0)

/-- Numbers with the same signs have products of the same strict negativity. -/
theorem sameSign_mul_neg_iff {a1 b1 a2 b2 : K} (h1 : SameSign a1 b1) (h2 : SameSign a2 b2) :
    a1 * a2 < 0 ↔ b1 * b2 < 0 := by
  rw [mul_neg_iff, mul_neg_iff, h1.1, h1.2, h2.1, h2.2]

/-- The result of `checkLineSegmentCollisionFl` as the disjunction of its six
`return true` conditions. -/
theorem checkLineSegmentCollisionFl_iff (A : Arith K) (seg1 seg2 : LineSegment K) :
    checkLineSegmentCollisionFl A seg1 seg2 = true ↔
      (A.rnd64 (orientationFl A seg1.x1 seg1.y1 seg1.x2 seg1.y2 seg2.x1 seg2.y1 *
          orientationFl A seg1.x1 seg1.y1 seg1.x2 seg1.y2 seg2.x2 seg2.y2) < 0 ∧
        A.rnd64 (orientationFl A seg2.x1 seg2.y1 seg2.x2 seg2.y2 seg1.x1 seg1.y1 *
          orientationFl A seg2.x1 seg2.y1 seg2.x2 seg2.y2 seg1.x2 seg1.y2) < 0) ∨
      (|orientationFl A seg1.x1 seg1.y1 seg1.x2 seg1.y2 seg2.x1 seg2.y1| < epsFl A ∧
        pointOnSegment seg2.x1 seg2.y1 seg1 = true) ∨
      (|orientationFl A seg1.x1 seg1.y1 seg1.x2 seg1.y2 seg2.x2 seg2.y2| < epsFl A ∧
        pointOnSegment seg2.x2 seg2.y2 seg1 = true) ∨
      (|orientationFl A seg2.x1 seg2.y1 seg2.x2 seg2.y2 seg1.x1 seg1.y1| < epsFl A ∧
        pointOnSegment seg1.x1 seg1.y1 seg2 = true) ∨
      (|orientationFl A seg2.x1 seg2.y1 seg2.x2 seg2.y2 seg1.x2 seg1.y2| < epsFl A ∧
        pointOnSegment seg1.x2 seg1.y2 seg2 = true) ∨
      ((|orientationFl A seg1.x1 seg1.y1 seg1.x2 seg1.y2 seg2.x1 seg2.y1| < epsFl A ∧
          |orientationFl A seg1.x1 seg1.y1 seg1.x2 seg1.y2 seg2.x2 seg2.y2| < epsFl A ∧
          |orientationFl A seg2.x1 seg2.y1 seg2.x2 seg2.y2 seg1.x1 seg1.y1| < epsFl A ∧
          |orientationFl A seg2.x1 seg2.y1 seg2.x2 seg2.y2 seg1.x2 seg1.y2| < epsFl A) ∧
        intervalsOverlap seg1.x1 seg1.x2 seg2.x1 seg2.x2 = true ∧
        intervalsOverlap seg1.y1 seg1.y2 seg2.y1 seg2.y2 = true) := by
  unfold checkLineSegmentCollisionFl
  simp only []
  split_ifs <;> simp_all

end RoundedKernelLemmas

section RoundedKernelClaims

variable {K : Type} [LinearOrderedField K]

/-- C18 as stated fails in `double` arithmetic.  For the segments `nearCollinearA`
and `nearCollinearB` all four computed orientation values have magnitude below
`EPSILON`, neither the x-intervals nor the y-intervals overlap, and
`checkLineSegmentCollision` returns true: rounding makes the orientation values
change sign in both pairs. -/
theorem checkLineSegmentCollisionFl_collinear_false_positive :
    (|orientationFl ieee nearCollinearA.x1 nearCollinearA.y1 nearCollinearA.x2
          nearCollinearA.y2 nearCollinearB.x1 nearCollinearB.y1| < epsFl ieee ∧
        |orientationFl ieee nearCollinearA.x1 nearCollinearA.y1 nearCollinearA.x2
          nearCollinearA.y2 nearCollinearB.x2 nearCollinearB.y2| < epsFl ieee ∧
        |orientationFl ieee nearCollinearB.x1 nearCollinearB.y1 nearCollinearB.x2
          nearCollinearB.y2 nearCollinearA.x1 nearCollinearA.y1| < epsFl ieee ∧
        |orientationFl ieee nearCollinearB.x1 nearCollinearB.y1 nearCollinearB.x2
          nearCollinearB.y2 nearCollinearA.x2 nearCollinearA.y2| < epsFl ieee) ∧
      intervalsOverlap nearCollinearA.x1 nearCollinearA.x2 nearCollinearB.x1
        nearCollinearB.x2 = false ∧
      intervalsOverlap nearCollinearA.y1 nearCollinearA.y2 nearCollinearB.y1
        nearCollinearB.y2 = false ∧
      checkLineSegmentCollisionFl ieee nearCollinearA nearCollinearB = true := by
  decide!

/-- C18, amended.  In `double` arithmetic, when all four computed orientation values
have magnitude below `EPSILON`, no operation overflows and rounding changes the
sign of none of them nor of the products `o1 * o2`, `o3 * o4`, `checkLineSegmentCollision` returns true if
and only if the x-intervals of the two segments overlap and their y-intervals
overlap. -/
theorem checkLineSegmentCollisionFl_collinear_iff (A : Arith K) (seg1 seg2 : LineSegment K)
    (a1 : |orientationFl A seg1.x1 seg1.y1 seg1.x2 seg1.y2 seg2.x1 seg2.y1| < epsFl A)
    (a2 : |orientationFl A seg1.x1 seg1.y1 seg1.x2 seg1.y2 seg2.x2 seg2.y2| < epsFl A)
    (a3 : |orientationFl A seg2.x1 seg2.y1 seg2.x2 seg2.y2 seg1.x1 seg1.y1| < epsFl A)
    (a4 : |orientationFl A seg2.x1 seg2.y1 seg2.x2 seg2.y2 seg1.x2 seg1.y2| < epsFl A)
    (hs : SignsKept A seg1 seg2) :
    checkLineSegmentCollisionFl A seg1 seg2 = true ↔
      (intervalsOverlap seg1.x1 seg1.x2 seg2.x1 seg2.x2 = true ∧
        intervalsOverlap seg1.y1 seg1.y2 seg2.y1 seg2.y2 = true) := by
  obtain ⟨⟨_, s1⟩, ⟨_, s2⟩, ⟨_, s3⟩, ⟨_, s4⟩, ⟨_, s12⟩, ⟨_, s34⟩⟩ := hs
  rw [checkLineSegmentCollisionFl_iff]
  constructor
  · rintro (⟨h12, h34⟩ | ⟨_, hb⟩ | ⟨_, hb⟩ | ⟨_, hb⟩ | ⟨_, hb⟩ | ⟨_, hov⟩)
    · exact intervalsOverlap_of_segmentsMeet (segmentsMeet_of_sign_changes seg1 seg2
        ((sameSign_mul_neg_iff s1 s2).mp (s12.1.mp h12))
        ((sameSign_mul_neg_iff s3 s4).mp (s34.1.mp h34)))
    · exact intervalsOverlap_of_pointOnSegment hb
        (pointOnSegment_of_onSegment (onSegment_start seg2))
    · exact intervalsOverlap_of_pointOnSegment hb
        (pointOnSegment_of_onSegment (onSegment_end seg2))
    · exact intervalsOverlap_of_pointOnSegment
        (pointOnSegment_of_onSegment (onSegment_start seg1)) hb
    · exact intervalsOverlap_of_pointOnSegment
        (pointOnSegment_of_onSegment (onSegment_end seg1)) hb
    · exact hov
  · intro hov
    exact Or.inr (Or.inr (Or.inr (Or.inr (Or.inr ⟨⟨a1, a2, a3, a4⟩, hov⟩))))

/-- The collinear segments `(0,0)-(1,1)` and `(2,2)-(3,3)` in binary64 arithmetic:
all four orientation values are computed as zero, signs are kept, the intervals
do not overlap, and the test answers false. -/
theorem checkLineSegmentCollisionFl_collinear_iff_witness :
    SignsKept ieee ⟨0, 0, 1, 1⟩ ⟨2, 2, 3, 3⟩ ∧
      (checkLineSegmentCollisionFl ieee ⟨0, 0, 1, 1⟩ ⟨2, 2, 3, 3⟩ = true ↔
        (intervalsOverlap (0 : ℚ) 1 2 3 = true ∧ intervalsOverlap (0 : ℚ) 1 2 3 = true)) ∧
      intervalsOverlap (0 : ℚ) 1 2 3 = false :=
  have hs : SignsKept ieee ⟨0, 0, 1, 1⟩ ⟨2, 2, 3, 3⟩ := by decide!
  ⟨hs, checkLineSegmentCollisionFl_collinear_iff ieee ⟨0, 0, 1, 1⟩ ⟨2, 2, 3, 3⟩
      (by decide!) (by decide!) (by decide!) (by decide!) hs, by decide!⟩

/-- C2 as stated fails in `double` arithmetic, in two ways.  First the `EPSILON`
test: `(0,0)-(1,1)` and the vertical segment from `(1/2, 1/2 + 2^-24)` up to
`(1/2, 2)` have no common point, yet the start of the second lies in the bounding
box of the first with orientation `-2^-24`, and the test returns true.  Second
rounding: `(0,0)-(100000001,100000000)` and `(100000000,99999999)-(100000000,0)`
have no common point and exact orientation values of magnitude at least 1, yet
the first one is computed as 0 and the test returns true. -/
theorem checkLineSegmentCollisionFl_false_positive :
    (checkLineSegmentCollisionFl ieee ⟨0, 0, 1, 1⟩
          ⟨1 / 2, 1 / 2 + 1 / 16777216, 1 / 2, 2⟩ = true ∧
        ¬ SegmentsMeet (⟨0, 0, 1, 1⟩ : LineSegment ℚ)
          ⟨1 / 2, 1 / 2 + 1 / 16777216, 1 / 2, 2⟩) ∧
      (checkLineSegmentCollisionFl ieee ⟨0, 0, 100000001, 100000000⟩
          ⟨100000000, 99999999, 100000000, 0⟩ = true ∧
        ¬ SegmentsMeet (⟨0, 0, 100000001, 100000000⟩ : LineSegment ℚ)
          ⟨100000000, 99999999, 100000000, 0⟩) := by
  refine ⟨⟨by decide!, ?_⟩, by decide!, ?_⟩
  · rintro ⟨px, py, ⟨t, ht0, ht1, hx1, hy1⟩, ⟨u, hu0, hu1, hx2, hy2⟩⟩
    simp only [sub_zero, zero_add, sub_self, mul_zero, add_zero, mul_one] at hx1 hy1 hx2 hy2
    have : 0 ≤ u * (2 - (1 / 2 + 1 / 16777216 : ℚ)) := mul_nonneg hu0 (by norm_num)
    linarith
  · rintro ⟨px, py, ⟨t, ht0, ht1, hx1, hy1⟩, ⟨u, hu0, hu1, hx2, hy2⟩⟩
    simp only [sub_zero, zero_add, sub_self, mul_zero, add_zero] at hx1 hy1 hx2 hy2
    linarith

/-- C2, amended.  In `double` arithmetic, if `checkLineSegmentCollision` returns
true, no operation overflows, rounding changes the sign of none of the four
orientation values and of neither product, and no `EPSILON` test that succeeds sees a nonzero orientation
value, then the two closed segments have a point in common. -/
theorem segmentsMeet_of_checkLineSegmentCollisionFl (A : Arith K)
    (seg1 seg2 : LineSegment K) (hs : SignsKept A seg1 seg2)
    (hg : TestsExact A seg1 seg2)
    (h : checkLineSegmentCollisionFl A seg1 seg2 = true) : SegmentsMeet seg1 seg2 := by
  obtain ⟨⟨_, s1⟩, ⟨_, s2⟩, ⟨_, s3⟩, ⟨_, s4⟩, ⟨_, s12⟩, ⟨_, s34⟩⟩ := hs
  obtain ⟨g1, g2, g3, g4, g5⟩ := hg
  rw [checkLineSegmentCollisionFl_iff] at h
  rcases h with ⟨h12, h34⟩ | h | h | h | h | h
  · exact segmentsMeet_of_sign_changes seg1 seg2
      ((sameSign_mul_neg_iff s1 s2).mp (s12.1.mp h12))
      ((sameSign_mul_neg_iff s3 s4).mp (s34.1.mp h34))
  · exact ⟨_, _, onSegment_of_collinear_of_pointOnSegment
      ((sameSign_eq_zero_iff s1).mp (g1 h)) h.2, onSegment_start seg2⟩
  · exact ⟨_, _, onSegment_of_collinear_of_pointOnSegment
      ((sameSign_eq_zero_iff s2).mp (g2 h)) h.2, onSegment_end seg2⟩
  · exact ⟨_, _, onSegment_start seg1, onSegment_of_collinear_of_pointOnSegment
      ((sameSign_eq_zero_iff s3).mp (g3 h)) h.2⟩
  · exact ⟨_, _, onSegment_end seg1, onSegment_of_collinear_of_pointOnSegment
      ((sameSign_eq_zero_iff s4).mp (g4 h)) h.2⟩
  · obtain ⟨z1, z2, z3, z4⟩ := g5 h
    exact segmentsMeet_of_collinear_overlap seg1 seg2 ((sameSign_eq_zero_iff s1).mp z1)
      ((sameSign_eq_zero_iff s2).mp z2) ((sameSign_eq_zero_iff s3).mp z3)
      ((sameSign_eq_zero_iff s4).mp z4) h.2.1 h.2.2

/-- The segment `(0,0)-(4,0)` and the segment `(2,0)-(2,3)` that starts on it, in
binary64 arithmetic: signs are kept, the end-point test fires on an orientation
value that is exactly zero, and the segments meet at `(2,0)`. -/
theorem segmentsMeet_of_checkLineSegmentCollisionFl_witness :
    SignsKept ieee ⟨0, 0, 4, 0⟩ ⟨2, 0, 2, 3⟩ ∧ TestsExact ieee ⟨0, 0, 4, 0⟩ ⟨2, 0, 2, 3⟩ ∧
      checkLineSegmentCollisionFl ieee ⟨0, 0, 4, 0⟩ ⟨2, 0, 2, 3⟩ = true ∧
      SegmentsMeet (⟨0, 0, 4, 0⟩ : LineSegment ℚ) ⟨2, 0, 2, 3⟩ :=
  have hs : SignsKept ieee ⟨0, 0, 4, 0⟩ ⟨2, 0, 2, 3⟩ := by decide!
  have hg : TestsExact ieee ⟨0, 0, 4, 0⟩ ⟨2, 0, 2, 3⟩ := by decide!
  have hc : checkLineSegmentCollisionFl ieee ⟨0, 0, 4, 0⟩ ⟨2, 0, 2, 3⟩ = true := by decide!
  ⟨hs, hg, hc, segmentsMeet_of_checkLineSegmentCollisionFl ieee _ _ hs hg hc⟩

end RoundedKernelClaims

/-! ## Path projection, position update and the tick in rounded arithmetic -/

section RoundedMotionLemmas

variable {K : Type} [LinearOrderedField K]

theorem updatePositionFl_frame (A : Arith K) (data : DroneDataF K) :
    (updatePositionFl A data).dirX = data.dirX ∧ (updatePositionFl A data).dirY = data.dirY ∧
      (updatePositionFl A data).destX = data.destX ∧
      (updatePositionFl A data).destY = data.destY := by
  unfold updatePositionFl
  simp only []
  split_ifs <;> exact ⟨rfl, rfl, rfl, rfl⟩

theorem isInvalidF_iff (ghost : GhostRecordF K) :
    isInvalidF ghost = true ↔
      ghost.currentX = none ∨ ghost.currentY = none ∨
        ghost.currentX = some 0 ∨ ghost.currentY = some 0 := by
  obtain ⟨x, y, dx, dy⟩ := ghost
  cases x <;> cases y <;> simp [isInvalidF, isnanF, eqZeroF]

theorem tickStepFl_of_isInvalid (A : Arith K) (L : Libm K) {cur : DroneDataF K}
    {ghost : GhostRecordF K} (h : isInvalidF ghost = true) :
    tickStepFl A L cur ghost = (TickBranch.discarded, cur) := by
  unfold tickStepFl
  rw [if_pos h]

/-- The loop body on a record that passes the validity test of the code: the goal
check, then the collision decision. -/
theorem tickStepFl_of_valid (A : Arith K) (L : Libm K) {cur : DroneDataF K}
    {ghost : GhostRecordF K} {gx gy : K}
    (hx : ghost.currentX = some gx) (hy : ghost.currentY = some gy)
    (hx0 : gx ≠ 0) (hy0 : gy ≠ 0) :
    tickStepFl A L cur ghost =
      if updateLengthFl A cur < epsFl A then (TickBranch.goalReached, cur)
      else if checkCollisionFl A cur
          ⟨gx, gy, ghost.currentDirectionX, ghost.currentDirectionY⟩ = true then
        (TickBranch.avoided,
          { cur with
            curX := A.rnd32 (avoidCollisionFl A L ⟨cur.curX, cur.curY⟩ ⟨cur.dirX, cur.dirY⟩).x
            curY := A.rnd32 (avoidCollisionFl A L ⟨cur.curX, cur.curY⟩ ⟨cur.dirX, cur.dirY⟩).y })
      else (TickBranch.advanced, updatePositionFl A cur) := by
  have hv : isInvalidF ghost = false := by
    rw [← Bool.not_eq_true, isInvalidF_iff, hx, hy]
    simp [hx0, hy0]
  unfold tickStepFl
  rw [hv]
  simp only [Bool.false_eq_true, if_false, hx, hy]

theorem tickStepFl_frame_fields (A : Arith K) (L : Libm K) (cur : DroneDataF K)
    (ghost : GhostRecordF K) :
    (tickStepFl A L cur ghost).2.dirX = cur.dirX ∧
      (tickStepFl A L cur ghost).2.dirY = cur.dirY ∧
      (tickStepFl A L cur ghost).2.destX = cur.destX ∧
      (tickStepFl A L cur ghost).2.destY = cur.destY := by
  by_cases hv : isInvalidF ghost = true
  · rw [tickStepFl_of_isInvalid A L hv]
    exact ⟨rfl, rfl, rfl, rfl⟩
  · rw [isInvalidF_iff] at hv
    push_neg at hv
    obtain ⟨hx, hy, hx0, hy0⟩ := hv
    obtain ⟨gx, hgx⟩ := Option.ne_none_iff_exists'.mp hx
    obtain ⟨gy, hgy⟩ := Option.ne_none_iff_exists'.mp hy
    have hx0 : gx ≠ 0 := fun h => hx0 (by rw [hgx, h])
    have hy0 : gy ≠ 0 := fun h => hy0 (by rw [hgy, h])
    rw [tickStepFl_of_valid A L hgx hgy hx0 hy0]
    split_ifs
    · exact ⟨rfl, rfl, rfl, rfl⟩
    · exact ⟨rfl, rfl, rfl, rfl⟩
    · exact updatePositionFl_frame A cur

end RoundedMotionLemmas

section RoundedMotionClaims

variable {K : Type} [LinearOrderedField K]

/-- C16 as stated fails.  State at `(0,0)` with direction field `(3,4)` and
destination `(10,0)`; record with position `(1,0)` and direction `(-1,0)`.  The
record is valid in the words of the specification (no coordinate is not-a-number
and the position is not `(0,0)`), the goal is not reached and `checkCollision` is
true, yet the tick throws the record away and leaves the position at `(0,0)`:
the code rejects a record as soon as one coordinate is zero. -/
theorem tickStepFl_discards_valid :
    ¬ specInvalidF (⟨some 1, some 0, -1, 0⟩ : GhostRecordF ℚ) ∧
      ¬ updateLengthFl ieee ⟨0, 0, 3, 4, 10, 0⟩ < epsFl ieee ∧
      checkCollisionFl ieee ⟨0, 0, 3, 4, 10, 0⟩ ⟨1, 0, -1, 0⟩ = true ∧
      (fun L : Libm ℚ => tickStepFl ieee L ⟨0, 0, 3, 4, 10, 0⟩ ⟨some 1, some 0, -1, 0⟩) =
        fun _ => (TickBranch.discarded, ⟨0, 0, 3, 4, 10, 0⟩) :=
  ⟨by decide!, by decide!, by decide!,
    funext fun L => tickStepFl_of_isInvalid ieee L (by decide!)⟩

/-- C16, amended.  A tick leaves the direction and destination fields unchanged, for
every state and observation.  When the observation passes the validity test of the
code (no coordinate is not-a-number and no coordinate is zero), the goal is not
reached and `checkCollision` is true, the tick takes the avoidance branch: the new
position is the result of `avoidCollision` on the current position and the point
whose coordinates are the direction field, each coordinate narrowed from `double`
to `float`, and `updatePosition` is not applied. -/
theorem tickStepFl_frame (A : Arith K) (L : Libm K) (cur : DroneDataF K)
    (ghost : GhostRecordF K) :
    ((tickStepFl A L cur ghost).2.dirX = cur.dirX ∧
      (tickStepFl A L cur ghost).2.dirY = cur.dirY ∧
      (tickStepFl A L cur ghost).2.destX = cur.destX ∧
      (tickStepFl A L cur ghost).2.destY = cur.destY) ∧
    (∀ gx gy : K, ghost.currentX = some gx → ghost.currentY = some gy →
      gx ≠ 0 → gy ≠ 0 →
      ¬ updateLengthFl A cur < epsFl A →
      checkCollisionFl A cur ⟨gx, gy, ghost.currentDirectionX, ghost.currentDirectionY⟩ = true →
      tickStepFl A L cur ghost =
        (TickBranch.avoided,
          { cur with
            curX := A.rnd32 (avoidCollisionFl A L ⟨cur.curX, cur.curY⟩ ⟨cur.dirX, cur.dirY⟩).x
            curY :=
              A.rnd32 (avoidCollisionFl A L ⟨cur.curX, cur.curY⟩ ⟨cur.dirX, cur.dirY⟩).y })) := by
  refine ⟨tickStepFl_frame_fields A L cur ghost, ?_⟩
  intro gx gy hx hy hx0 hy0 hgoal hcol
  rw [tickStepFl_of_valid A L hx hy hx0 hy0, if_neg hgoal, if_pos hcol]

/-- Real drone at `(0,0)` heading to `(10,0)` with direction field `(3,4)`, ghost at
`(1,1)` moving straight down: the paths cross at `(1,0)` and the tick takes the
avoidance branch, whatever the C library returns. -/
theorem tickStepFl_frame_witness :
    (fun L : Libm ℚ => tickStepFl ieee L ⟨0, 0, 3, 4, 10, 0⟩ ⟨some 1, some 1, 0, -1⟩) =
      fun L => (TickBranch.avoided,
        { (⟨0, 0, 3, 4, 10, 0⟩ : DroneDataF ℚ) with
          curX := ieee.rnd32 (avoidCollisionFl ieee L ⟨0, 0⟩ ⟨3, 4⟩).x
          curY := ieee.rnd32 (avoidCollisionFl ieee L ⟨0, 0⟩ ⟨3, 4⟩).y }) :=
  funext fun L =>
    (tickStepFl_frame ieee L ⟨0, 0, 3, 4, 10, 0⟩ ⟨some 1, some 1, 0, -1⟩).2 1 1 rfl rfl
      (by decide) (by decide) (by decide!) (by decide!)

end RoundedMotionClaims

end Drone
